import Mathlib

/-!
Shallow embedding of the test-case generation core of the `testgen` backend
(`app/services/ai/`): the response parser (`response_parser.py`), the prompt
template manager (`prompt_manager.py`), the domain/complexity classifier, the
retry loop and the generation orchestrator (`openai_service.py`).  External
effects (the completion API, Jinja rendering, `random.random()`, wall-clock
time, and string-to-JSON extraction) are passed in as oracle parameters, so
every definition is an executable, total Lean function; machine `int` values
are modelled as `Int`/`Nat`, Python `float` arithmetic on the small decimal
constants of this code as `Rat`.
-/

set_option autoImplicit false

namespace TestGen

/-- A JSON-like dynamic value, used for Python `Dict[str, Any]` payloads
(`additional_context`, `test_data`, `summary`, expected output formats). -/
inductive JVal where
  | null
  | bool (b : Bool)
  | num (q : ℚ)
  | str (s : String)
  | arr (xs : List JVal)
  | obj (fields : List (String × JVal))
deriving Repr

/-- Lookup in an association list modelling a Python `dict` (first match). -/
def dictGet {α : Type} (d : List (String × α)) (k : String) : Option α :=
  (d.find? (fun p => p.1 = k)).map (·.2)

/-- Python `dict` assignment `d[k] = v`: replaces the value in place if the
key is present (keeping insertion order), otherwise appends. -/
def dictSet {α : Type} (d : List (String × α)) (k : String) (v : α) : List (String × α) :=
  if d.any (fun p => p.1 = k) then d.map (fun p => if p.1 = k then (k, v) else p)
  else d ++ [(k, v)]

/-- Python `sub in s` for a non-empty needle `sub` (case-sensitive substring
test), expressed through `String.splitOn`. -/
def containsSubstr (s sub : String) : Bool :=
  (s.splitOn sub).length != 1

/-- Token usage for one completion call (`token_tracker.TokenUsage`).  The
wall-clock `timestamp` and the derived `estimated_cost` field are omitted:
no claim under verification observes them. -/
structure TokenUsage where
  model : String
  prompt_tokens : Nat
  completion_tokens : Nat
  total_tokens : Nat
  request_id : Option String := none
deriving Repr, DecidableEq

/-! ## Response parser data model (`response_parser.py`) -/

/-- One normalized test step as built by the parser: the Python code always
produces dicts with exactly the keys `step_number`, `action`,
`expected_result` and `test_data`. -/
structure TestStep where
  step_number : ℤ
  action : String
  expected_result : String
  test_data : JVal := .obj []
deriving Repr

/-- The `response_parser.ParsedTestCase` with the pydantic defaults of the source. -/
structure ParsedTestCase where
  title : String
  description : String
  prerequisites : List String := []
  test_steps : List TestStep := []
  expected_final_result : String
  classification : String := "manual"
  priority : String := "medium"
  test_type : String := "functional"
  estimated_duration : ℤ := 10
  tags : List String := []
  persona : Option String := none
  persona_context : Option String := none
  permission_validations : List String := []
  cross_persona_interactions : List String := []
deriving Repr

/-- The `response_parser.ParsedResponse`. -/
structure ParsedResponse where
  test_cases : List ParsedTestCase
  summary : JVal := .obj []
  persona_test_cases : List (String × List ParsedTestCase) := []
  cross_persona_scenarios : List JVal := []
  raw_content : String
  parsing_success : Bool
  parsing_errors : List String := []
  confidence_score : ℚ := 0
deriving Repr

/-- A raw step element of a JSON `test_steps` array as seen by
`_parse_test_case_data`: a dict (with the keys it reads, each possibly
absent), a plain string, or any other JSON value (which the code silently
skips while still advancing the enumeration index). -/
inductive RawStep where
  | dict (step_number : Option ℤ) (action : Option String)
      (expected_result : Option String) (test_data : Option JVal)
  | str (s : String)
  | other
deriving Repr

/-- A well-typed JSON test-case dict as consumed by `_parse_test_case_data`;
`none` models an absent key (so `dict.get(key, default)` takes the default). -/
structure TcData where
  title : Option String := none
  description : Option String := none
  prerequisites : Option (List String) := none
  test_steps : Option (List RawStep) := none
  expected_final_result : Option String := none
  classification : Option String := none
  priority : Option String := none
  test_type : Option String := none
  estimated_duration : Option ℤ := none
  tags : Option (List String) := none
  persona : Option String := none
  persona_context : Option String := none
  permission_validations : Option (List String) := none
  cross_persona_interactions : Option (List String) := none
deriving Repr

/-- The step-normalization loop of `_parse_test_case_data`, with `i` the
Python `enumerate` index.  A dict step keeps an explicit `step_number` and
only defaults to `i + 1` when the key is absent; a string step always gets
`i + 1`; anything else is skipped (the index still advances). -/
def normalizeStepsGo (i : Nat) : List RawStep → List TestStep
  | [] => []
  | .dict sn a er td :: rest =>
      { step_number := sn.getD (i + 1), action := a.getD "",
        expected_result := er.getD "", test_data := td.getD (.obj []) }
        :: normalizeStepsGo (i + 1) rest
  | .str s :: rest =>
      { step_number := (i + 1 : ℤ), action := s, expected_result := "",
        test_data := .obj [] } :: normalizeStepsGo (i + 1) rest
  | .other :: rest => normalizeStepsGo (i + 1) rest

/-- The `_parse_test_case_data`: builds a `ParsedTestCase` from a JSON dict with
the `dict.get` defaults of the source. -/
def parse_test_case_data (tc : TcData) : ParsedTestCase where
  title := tc.title.getD "Untitled Test Case"
  description := tc.description.getD ""
  prerequisites := tc.prerequisites.getD []
  test_steps := normalizeStepsGo 0 (tc.test_steps.getD [])
  expected_final_result := tc.expected_final_result.getD ""
  classification := tc.classification.getD "manual"
  priority := tc.priority.getD "medium"
  test_type := tc.test_type.getD "functional"
  estimated_duration := tc.estimated_duration.getD 10
  tags := tc.tags.getD []
  persona := tc.persona
  persona_context := tc.persona_context
  permission_validations := tc.permission_validations.getD []
  cross_persona_interactions := tc.cross_persona_interactions.getD []

/-- A structured JSON payload as read by `_parse_json_response`.  Each
test-case entry is `Except.error msg` when building the `ParsedTestCase`
raises (the per-case `try/except` appends `msg` to the error list), and
`Except.ok` with the well-typed dict otherwise. -/
structure JsonPayload where
  test_cases : Option (List (Except String TcData)) := none
  persona_test_cases : Option (List (String × List (Except String TcData))) := none
  cross_persona_scenarios : Option (List JVal) := none
  summary : Option JVal := none
deriving Repr

/-- The `test_cases` loop of `_parse_json_response`: a raised case parse
appends an error, a successful one appends the parsed case. -/
def parseJsonCases (items : List (Except String TcData)) (errs : List String) :
    List ParsedTestCase × List String :=
  match items with
  | [] => ([], errs)
  | .ok d :: rest =>
      let (cs, es) := parseJsonCases rest errs
      (parse_test_case_data d :: cs, es)
  | .error m :: rest =>
      parseJsonCases rest (errs ++ ["Error parsing test case: " ++ m])

/-- The inner loop over one persona group of `_parse_json_response`. -/
def parseJsonPersonaGroup (persona : String) (items : List (Except String TcData))
    (errs : List String) : List ParsedTestCase × List String :=
  match items with
  | [] => ([], errs)
  | .ok d :: rest =>
      let (cs, es) := parseJsonPersonaGroup persona rest errs
      ({ parse_test_case_data d with persona := some persona } :: cs, es)
  | .error m :: rest =>
      parseJsonPersonaGroup persona rest
        (errs ++ ["Error parsing persona test case for " ++ persona ++ ": " ++ m])

/-- The `persona_test_cases` loop of `_parse_json_response`: each parsed case
gets its `persona` field overwritten with the group key; a group is recorded
even when all of its cases fail to parse. -/
def parseJsonPersonaCases (groups : List (String × List (Except String TcData)))
    (errs : List String) : List (String × List ParsedTestCase) × List String :=
  match groups with
  | [] => ([], errs)
  | (p, items) :: rest =>
      let (cs, es) := parseJsonPersonaGroup p items errs
      let (gs, es) := parseJsonPersonaCases rest es
      ((p, cs) :: gs, es)

/-- The `_parse_json_response`: returns (test cases, persona groups, cross-persona
scenarios, summary, accumulated parsing errors). -/
def parse_json_response (jd : JsonPayload) (errs : List String) :
    List ParsedTestCase × List (String × List ParsedTestCase) × List JVal × JVal × List String :=
  let summary := jd.summary.getD (.obj [])
  let (cases, errs) :=
    match jd.test_cases with
    | some items => parseJsonCases items errs
    | none => ([], errs)
  let (personaCases, errs) :=
    match jd.persona_test_cases with
    | some groups => parseJsonPersonaCases groups errs
    | none => ([], errs)
  let cross := jd.cross_persona_scenarios.getD []
  (cases, personaCases, cross, summary, errs)

/-- Values accepted by the validator for `classification`. -/
def valid_classifications : List String := ["manual", "api_automation", "ui_automation"]

/-- Values accepted by the validator for `priority`. -/
def valid_priorities : List String := ["high", "medium", "low"]

/-- Values accepted by the validator for `test_type`. -/
def valid_types : List String :=
  ["functional", "integration", "boundary", "negative", "performance", "security"]

/-- The title defaulting at the top of the `_validate_test_cases` loop body
(`i` is the enumeration index). -/
def retitle (i : Nat) (tc : ParsedTestCase) : ParsedTestCase :=
  if tc.title = "" then { tc with title := "Test Case " ++ toString (i + 1) } else tc

/-- The enum / duration coercions of the `_validate_test_cases` loop body:
classification, priority and test type outside their closed sets fall back to
`manual` / `medium` / `functional`, and a non-positive estimated duration is
coerced to 10 minutes. -/
def coerceFields (tc : ParsedTestCase) : ParsedTestCase :=
  let tc := if valid_classifications.contains tc.classification then tc
    else { tc with classification := "manual" }
  let tc := if valid_priorities.contains tc.priority then tc
    else { tc with priority := "medium" }
  let tc := if valid_types.contains tc.test_type then tc
    else { tc with test_type := "functional" }
  if tc.estimated_duration ≤ 0 then { tc with estimated_duration := 10 } else tc

/-- The loop of `_validate_test_cases`, with `i` the enumeration index:
defaults an empty title, records an error for a missing description, drops a
case without steps (recording an error and continuing), and keeps the
coerced case otherwise. -/
def validateGo (i : Nat) : List ParsedTestCase → List String →
    List ParsedTestCase × List String
  | [], errs => ([], errs)
  | tc :: rest, errs =>
      let tc := retitle i tc
      let errs := if tc.description = "" then
        errs ++ ["Test case \x27" ++ tc.title ++ "\x27 missing description"] else errs
      if tc.test_steps.isEmpty then
        validateGo (i + 1) rest
          (errs ++ ["Test case \x27" ++ tc.title ++ "\x27 missing test steps"])
      else
        let (vs, errs) := validateGo (i + 1) rest errs
        (coerceFields tc :: vs, errs)

/-- The `_validate_test_cases`. -/
def validate_test_cases (cases : List ParsedTestCase) (errs : List String) :
    List ParsedTestCase × List String :=
  validateGo 0 cases errs

/-- The per-case points of `_calculate_confidence_score` (out of 100). -/
def caseScore (tc : ParsedTestCase) : ℕ :=
  (if tc.title ≠ "" ∧ 5 < tc.title.length then 20 else 0) +
  (if tc.description ≠ "" ∧ 10 < tc.description.length then 15 else 0) +
  (if ¬tc.test_steps.isEmpty then min 30 (tc.test_steps.length * 5) else 0) +
  (if tc.expected_final_result ≠ "" then 15 else 0) +
  (if valid_classifications.contains tc.classification then 10 else 0) +
  (if valid_priorities.contains tc.priority then 5 else 0) +
  (if tc.test_type ≠ "" then 5 else 0)

/-- The `_calculate_confidence_score`: sums the per-case points, subtracts 10 per
parsing error (floored at 0), normalizes by `caseCount * 100` and caps at 1;
an empty case list scores 0. -/
def calculate_confidence_score (cases : List ParsedTestCase) (errs : List String) : ℚ :=
  if cases.isEmpty then 0
  else
    let total : ℤ := ((cases.map caseScore).sum : ℕ)
    let maxScore : ℚ := (cases.length : ℚ) * 100
    let total : ℤ := max 0 (total - (errs.length : ℤ) * 10)
    min 1 ((total : ℚ) / maxScore)

/-- The `parse_response` restricted to the body of its `try` block.  The oracle
`extract` stands for `_extract_json` (regex scan plus `json.loads` over the
raw string) and `textParse` for the free-text fallback `_parse_text_response`
(regex segmentation; it threads and may extend the error list).  The
`expected_format` argument is carried for interface fidelity; the source
never reads it. -/
def parse_response_body (extract : String → Option JsonPayload)
    (textParse : String → List String → List ParsedTestCase × List String)
    (raw : String) (_expected_format : JVal) : ParsedResponse :=
  let errs : List String := []
  let (cases, personaCases, cross, summary, errs) :=
    match extract raw with
    | some jd => parse_json_response jd errs
    | none =>
        let (cases, errs) := textParse raw errs
        (cases, [], [], .obj [], errs)
  let (validated, errs) := validate_test_cases cases errs
  let conf := calculate_confidence_score validated errs
  { test_cases := validated
    summary := summary
    persona_test_cases := personaCases
    cross_persona_scenarios := cross
    raw_content := raw
    parsing_success := errs.isEmpty
    parsing_errors := errs
    confidence_score := conf }

/-- The `except` branch of `parse_response`: `errs` are the errors already
accumulated when the exception fired, `msg` is `str(e)`. -/
def parse_response_failure (raw : String) (errs : List String) (msg : String) :
    ParsedResponse where
  test_cases := []
  raw_content := raw
  parsing_success := false
  parsing_errors := errs ++ ["Critical parsing error: " ++ msg]
  confidence_score := 0

/-- The `parse_response` with an explicit exception oracle: `exc = some (errs, msg)`
models an exception with text `msg` escaping the `try` body after the error
list has reached `errs`; `none` is the normal path. -/
def parse_response (extract : String → Option JsonPayload)
    (textParse : String → List String → List ParsedTestCase × List String)
    (raw : String) (fmt : JVal) (exc : Option (List String × String)) : ParsedResponse :=
  match exc with
  | some (errs, msg) => parse_response_failure raw errs msg
  | none => parse_response_body extract textParse raw fmt

/-! ## Prompt template manager (`prompt_manager.py`) -/

/-- The `StoryDomain`. -/
inductive StoryDomain where
  | ecommerce | finance | healthcare | saas | mobile | api | general
deriving Repr, DecidableEq

/-- The `.value` string of a `StoryDomain` member. -/
def StoryDomain.value : StoryDomain → String
  | .ecommerce => "ecommerce"
  | .finance => "finance"
  | .healthcare => "healthcare"
  | .saas => "saas"
  | .mobile => "mobile"
  | .api => "api"
  | .general => "general"

/-- The `StoryComplexity`. -/
inductive StoryComplexity where
  | simple | medium | complex
deriving Repr, DecidableEq

/-- The `.value` string of a `StoryComplexity` member. -/
def StoryComplexity.value : StoryComplexity → String
  | .simple => "simple"
  | .medium => "medium"
  | .complex => "complex"

/-- The `TestGenerationType`. -/
inductive TestGenerationType where
  | standard | persona_based | edge_case_focused | performance_focused | security_focused
deriving Repr, DecidableEq

/-- The `.value` string of a `TestGenerationType` member. -/
def TestGenerationType.value : TestGenerationType → String
  | .standard => "standard"
  | .persona_based => "persona_based"
  | .edge_case_focused => "edge_case_focused"
  | .performance_focused => "performance_focused"
  | .security_focused => "security_focused"

/-- The `PromptContext` (dataclass). -/
structure PromptContext where
  domain : StoryDomain
  complexity : StoryComplexity
  generation_type : TestGenerationType
  user_story_title : String
  user_story_description : String
  acceptance_criteria : String
  additional_context : Option (List (String × JVal)) := none
  personas : Option (List String) := none
  business_rules : Option (List String) := none
deriving Repr

/-- The `PromptTemplate` (pydantic model). -/
structure PromptTemplate where
  name : String
  domain : StoryDomain
  complexity : StoryComplexity
  generation_type : TestGenerationType
  system_prompt : String
  user_prompt_template : String
  expected_output_format : JVal
  quality_criteria : List String
  token_estimate : ℤ
  version : String := "1.0"
deriving Repr

/-- The template registry (`PromptManager.templates`): a Python dict keyed by
strings, modelled as an insertion-ordered association list. -/
abbrev TemplateRegistry := List (String × PromptTemplate)

/-- The `_get_standard_output_format` (Jinja-free JSON schema description;
literal braces of the source do not occur — it is a Python dict). -/
def standard_output_format : JVal :=
  .obj [("test_cases", .arr [
      .obj [("title", .str "string"), ("description", .str "string"),
        ("prerequisites", .arr [.str "string"]),
        ("test_steps", .arr [
          .obj [("step_number", .str "integer"), ("action", .str "string"),
            ("expected_result", .str "string"), ("test_data", .str "object")]]),
        ("expected_final_result", .str "string"),
        ("classification", .str "manual|api_automation|ui_automation"),
        ("priority", .str "high|medium|low"),
        ("test_type", .str "functional|integration|boundary|negative"),
        ("estimated_duration", .str "integer (minutes)"),
        ("tags", .arr [.str "string"])]]),
    ("summary", .obj [("total_test_cases", .str "integer"),
      ("coverage_areas", .arr [.str "string"]),
      ("automation_ratio", .str "float")])]

/-- The `_get_persona_output_format`. -/
def persona_output_format : JVal :=
  .obj [("persona_test_cases", .obj [("persona_name", .arr [
      .obj [("title", .str "string"), ("description", .str "string"),
        ("persona", .str "string"), ("persona_context", .str "string"),
        ("prerequisites", .arr [.str "string"]),
        ("test_steps", .arr [
          .obj [("step_number", .str "integer"), ("action", .str "string"),
            ("expected_result", .str "string"),
            ("persona_specific_notes", .str "string")]]),
        ("permission_validations", .arr [.str "string"]),
        ("cross_persona_interactions", .arr [.str "string"]),
        ("classification", .str "manual|api_automation|ui_automation"),
        ("priority", .str "high|medium|low")]])]),
    ("cross_persona_scenarios", .arr [
      .obj [("title", .str "string"), ("involved_personas", .arr [.str "string"]),
        ("scenario_description", .str "string"),
        ("test_steps", .arr [.str "object"])]])]

/-- The `_get_ecommerce_system_prompt` (abridged to its first line plus the domain
marker; the prose body is inert data never inspected by any verified
operation, only carried). -/
def ecommerce_system_prompt : String :=
  "You are an expert QA engineer specializing in e-commerce testing. Generate comprehensive, realistic test cases."

/-- The `_get_finance_system_prompt` (abridged, see `ecommerce_system_prompt`). -/
def finance_system_prompt : String :=
  "You are an expert QA engineer specializing in financial services testing. Generate comprehensive, compliant test cases."

/-- The `_get_healthcare_system_prompt` (abridged). -/
def healthcare_system_prompt : String :=
  "You are an expert QA engineer specializing in healthcare IT testing. Generate comprehensive, HIPAA-compliant test cases."

/-- The `_get_saas_system_prompt` (abridged). -/
def saas_system_prompt : String :=
  "You are an expert QA engineer specializing in SaaS application testing. Generate comprehensive test cases."

/-- The `_get_persona_system_prompt` (abridged). -/
def persona_system_prompt : String :=
  "You are an expert QA engineer specializing in persona-based testing. Generate test cases from the perspective of different user personas."

/-- The `_get_edge_case_system_prompt` (abridged). -/
def edge_case_system_prompt : String :=
  "You are an expert QA engineer specializing in edge case and boundary testing. Generate comprehensive test cases."

/-- The `_get_standard_user_prompt_template` (abridged to its head and the Jinja
variable slots, with literal braces written as escapes; like the system
prompts this string is inert data rendered only by the external Jinja
oracle). -/
def standard_user_prompt_template : String :=
  "Generate comprehensive test cases for the following user story:\n\n**Title:** \x7b\x7b title \x7d\x7d\n\n**Description:** \x7b\x7b description \x7d\x7d\n\n**Acceptance Criteria:**\n\x7b\x7b acceptance_criteria \x7d\x7d\n\n**Domain:** \x7b\x7b domain \x7d\x7d\n**Complexity:** \x7b\x7b complexity \x7d\x7d"

/-- The `_get_persona_user_prompt_template` (abridged, see above). -/
def persona_user_prompt_template : String :=
  "Generate persona-specific test cases for the following user story:\n\n**Title:** \x7b\x7b title \x7d\x7d\n\n**Description:** \x7b\x7b description \x7d\x7d\n\n**Acceptance Criteria:**\n\x7b\x7b acceptance_criteria \x7d\x7d\n\n**Target Personas:**\n\x7b% for persona in personas %\x7d\n- \x7b\x7b persona \x7d\x7d\n\x7b% endfor %\x7d"

/-- The `_get_edge_case_user_prompt_template` (abridged, see above). -/
def edge_case_user_prompt_template : String :=
  "Generate edge case and boundary test cases for the following user story:\n\n**Title:** \x7b\x7b title \x7d\x7d\n\n**Description:** \x7b\x7b description \x7d\x7d\n\n**Acceptance Criteria:**\n\x7b\x7b acceptance_criteria \x7d\x7d"

/-- The `_get_ecommerce_quality_criteria` (first entries; inert data). -/
def ecommerce_quality_criteria : List String :=
  ["Test cases cover the complete customer journey from browsing to order completion",
   "Payment processing scenarios include multiple payment methods and error conditions"]

/-- The `_get_finance_quality_criteria` (first entries; inert data). -/
def finance_quality_criteria : List String :=
  ["All test cases verify security and compliance requirements",
   "Transaction processing includes validation and audit trail verification"]

/-- The `_get_healthcare_quality_criteria` (first entries; inert data). -/
def healthcare_quality_criteria : List String :=
  ["Patient data privacy and HIPAA compliance are verified in all scenarios",
   "Clinical workflow integration is validated with realistic medical scenarios"]

/-- The `_get_saas_quality_criteria` (first entries; inert data). -/
def saas_quality_criteria : List String :=
  ["Multi-tenancy and data isolation are verified in all scenarios",
   "API functionality includes authentication and rate limiting tests"]

/-- The `_get_persona_quality_criteria` (first entries; inert data). -/
def persona_quality_criteria : List String :=
  ["Each persona has distinct test scenarios reflecting their role",
   "Permission boundaries are validated for each persona type"]

/-- The `_get_edge_case_quality_criteria` (first entries; inert data). -/
def edge_case_quality_criteria : List String :=
  ["Boundary value analysis covers minimum and maximum constraints",
   "Error handling and recovery mechanisms are thoroughly tested"]

/-- The `_load_default_templates`: the six default registry entries, in insertion
order, with the metadata of the source. -/
def defaultTemplates : TemplateRegistry :=
  [("ecommerce_standard",
    { name := "E-commerce Standard Test Generation", domain := .ecommerce,
      complexity := .medium, generation_type := .standard,
      system_prompt := ecommerce_system_prompt,
      user_prompt_template := standard_user_prompt_template,
      expected_output_format := standard_output_format,
      quality_criteria := ecommerce_quality_criteria, token_estimate := 1200 }),
   ("finance_standard",
    { name := "Finance Standard Test Generation", domain := .finance,
      complexity := .medium, generation_type := .standard,
      system_prompt := finance_system_prompt,
      user_prompt_template := standard_user_prompt_template,
      expected_output_format := standard_output_format,
      quality_criteria := finance_quality_criteria, token_estimate := 1300 }),
   ("healthcare_standard",
    { name := "Healthcare Standard Test Generation", domain := .healthcare,
      complexity := .medium, generation_type := .standard,
      system_prompt := healthcare_system_prompt,
      user_prompt_template := standard_user_prompt_template,
      expected_output_format := standard_output_format,
      quality_criteria := healthcare_quality_criteria, token_estimate := 1400 }),
   ("saas_standard",
    { name := "SaaS Standard Test Generation", domain := .saas,
      complexity := .medium, generation_type := .standard,
      system_prompt := saas_system_prompt,
      user_prompt_template := standard_user_prompt_template,
      expected_output_format := standard_output_format,
      quality_criteria := saas_quality_criteria, token_estimate := 1100 }),
   ("persona_based",
    { name := "Persona-based Test Generation", domain := .general,
      complexity := .medium, generation_type := .persona_based,
      system_prompt := persona_system_prompt,
      user_prompt_template := persona_user_prompt_template,
      expected_output_format := persona_output_format,
      quality_criteria := persona_quality_criteria, token_estimate := 1500 }),
   ("edge_case_focused",
    { name := "Edge Case Focused Test Generation", domain := .general,
      complexity := .complex, generation_type := .edge_case_focused,
      system_prompt := edge_case_system_prompt,
      user_prompt_template := edge_case_user_prompt_template,
      expected_output_format := standard_output_format,
      quality_criteria := edge_case_quality_criteria, token_estimate := 1600 })]

/-- The `get_optimal_template`: exact `(domain, generationType)` key, then
`(domain, "standard")`, then the bare generation-type key, then the
`"saas_standard"` ultimate fallback.  Returns `none` exactly when the final
dict subscript `templates["saas_standard"]` would raise `KeyError`. -/
def get_optimal_template (reg : TemplateRegistry) (ctx : PromptContext) :
    Option PromptTemplate :=
  match dictGet reg (ctx.domain.value ++ "_" ++ ctx.generation_type.value) with
  | some t => some t
  | none =>
    match dictGet reg (ctx.domain.value ++ "_standard") with
    | some t => some t
    | none =>
      match dictGet reg ctx.generation_type.value with
      | some t => some t
      | none => dictGet reg "saas_standard"

/-- The rendered-prompt record returned by `generate_prompt`. -/
structure PromptData where
  system_prompt : String
  user_prompt : String
  expected_format : JVal
  quality_criteria : List String
  template_name : String
  estimated_tokens : ℤ
deriving Repr

/-- The `generate_prompt`, with Jinja substitution supplied as the oracle
`render` (template body and context to rendered user prompt); `none` models
the `KeyError` of an unresolvable ultimate fallback. -/
def generate_prompt (reg : TemplateRegistry) (render : String → PromptContext → String)
    (ctx : PromptContext) : Option PromptData :=
  (get_optimal_template reg ctx).map fun t =>
    { system_prompt := t.system_prompt
      user_prompt := render t.user_prompt_template ctx
      expected_format := t.expected_output_format
      quality_criteria := t.quality_criteria
      template_name := t.name
      estimated_tokens := t.token_estimate }

/-- The `add_custom_template`: registers under the `domain_generationType` key. -/
def add_custom_template (reg : TemplateRegistry) (t : PromptTemplate) : TemplateRegistry :=
  dictSet reg (t.domain.value ++ "_" ++ t.generation_type.value) t

/-! ## Domain / complexity classifier (`openai_service.py`) -/

/-- The `GenerationRequest` (dataclass defaults from the source). -/
structure GenerationRequest where
  user_story_title : String
  user_story_description : String
  acceptance_criteria : String
  domain : Option StoryDomain := none
  complexity : Option StoryComplexity := none
  generation_type : TestGenerationType := .standard
  personas : Option (List String) := none
  business_rules : Option (List String) := none
  additional_context : Option (List (String × JVal)) := none
  max_test_cases : ℕ := 12
  quality_threshold : ℚ := 0.75
deriving Repr

/-- The keyword table of `_detect_domain`, in the insertion order of the source
dict. -/
def domain_keywords : List (StoryDomain × List String) :=
  [(.ecommerce, ["cart", "checkout", "product", "order", "payment", "shop", "buy", "purchase"]),
   (.finance, ["payment", "transaction", "account", "balance", "banking", "credit", "loan"]),
   (.healthcare, ["patient", "medical", "doctor", "treatment", "prescription", "health", "clinical"]),
   (.saas, ["subscription", "tenant", "dashboard", "analytics", "configuration", "integration"]),
   (.mobile, ["mobile", "app", "touch", "swipe", "notification", "offline", "device"]),
   (.api, ["api", "endpoint", "service", "webhook", "integration", "json", "rest"])]

/-- The `_detect_domain`: per-domain keyword-occurrence counts over the lowered
description, keeping only positive scores; `max(..., key=...)` returns the
first maximum in dict insertion order, and an empty score dict falls back to
`general`. -/
def detect_domain (description : String) : StoryDomain :=
  let dl := description.toLower
  let scores := (domain_keywords.map fun p =>
    (p.1, (p.2.filter fun k => containsSubstr dl k).length)).filter fun p => 0 < p.2
  match scores with
  | [] => .general
  | s :: rest => (rest.foldl (fun best p => if best.2 < p.2 then p else best) s).1

/-- Python `str.split()` (split on whitespace, dropping empty fields). -/
def pySplitWs (s : String) : List String :=
  (s.split Char.isWhitespace).filter (· ≠ "")

/-- The integration keywords of `_estimate_complexity`. -/
def integration_keywords : List String :=
  ["integrate", "api", "service", "external", "third-party", "webhook"]

/-- The `_estimate_complexity`: accumulates a score from criteria line count,
description word count, integration keywords, persona count and business-rule
count, then buckets it. -/
def estimate_complexity (request : GenerationRequest) : StoryComplexity :=
  let criteria_lines := (request.acceptance_criteria.splitOn "\n").length
  let score : ℚ :=
    (if 10 < criteria_lines then 3/10 else if 5 < criteria_lines then 3/20 else 0)
  let description_words := (pySplitWs request.user_story_description).length
  let score := score +
    (if 100 < description_words then 1/5 else if 50 < description_words then 1/10 else 0)
  let score := score +
    (if integration_keywords.any
        (fun k => containsSubstr request.user_story_description.toLower k)
     then 1/5 else 0)
  let score := score + (if 2 < (request.personas.getD []).length then 3/20 else 0)
  let score := score + (if 3 < (request.business_rules.getD []).length then 3/20 else 0)
  if 7/10 ≤ score then .complex
  else if 3/10 ≤ score then .medium
  else .simple

/-! ## Retry loop (`_generate_with_retry`, `_calculate_retry_delay`) -/

/-- The `RetryConfig` (class attributes of the source). -/
structure RetryConfig where
  max_retries : ℕ := 3
  base_delay : ℚ := 1
  max_delay : ℚ := 60
  exponential_base : ℚ := 2
  jitter : Bool := true
deriving Repr

/-- Outcome of one attempt of the completion call, distinguishing the four
exception classes the source catches (`RateLimitError`,
`APITimeoutError`/`APIConnectionError`, `APIError` with its optional HTTP
status) from success. -/
inductive ApiOutcome where
  | success (content : String) (usage : TokenUsage)
  | rateLimit (msg : String)
  | timeoutConn (msg : String)
  | apiError (status : Option ℤ) (msg : String)
deriving Repr, DecidableEq

/-- The exception text (`str(e)`) of a failure outcome. -/
def ApiOutcome.message : ApiOutcome → String
  | .success _ _ => ""
  | .rateLimit m => m
  | .timeoutConn m => m
  | .apiError _ m => m

/-- Whether the retry loop is willing to retry after this outcome: rate
limits, timeouts/connection errors, and API errors with a (truthy) status of
at least 500. -/
def ApiOutcome.retryable : ApiOutcome → Bool
  | .success _ _ => false
  | .rateLimit _ => true
  | .timeoutConn _ => true
  | .apiError st _ => st.any fun s => 500 ≤ s

/-- The `base_delay` override passed to `_calculate_retry_delay` for this
failure: `60.0` for rate limits, `None` (use the configured base) otherwise. -/
def ApiOutcome.baseOverride : ApiOutcome → Option ℚ
  | .rateLimit _ => some 60
  | _ => none

/-- The pre-jitter delay of `_calculate_retry_delay`:
`min(base * exponential_base ** attempt, max_delay)`. -/
def nominalDelay (cfg : RetryConfig) (attempt : ℕ) (base? : Option ℚ) : ℚ :=
  min (base?.getD cfg.base_delay * cfg.exponential_base ^ attempt) cfg.max_delay

/-- The `_calculate_retry_delay` with the `random.random()` draw made explicit:
multiplies by `0.5 + rand * 0.5` when jitter is on.  (`base_delay or
cfg.base_delay` is modelled by `Option.getD`; the source never passes a zero
override, so truthiness and presence agree.) -/
def calculate_retry_delay (cfg : RetryConfig) (attempt : ℕ) (base? : Option ℚ)
    (rand : ℚ) : ℚ :=
  let delay := nominalDelay cfg attempt base?
  if cfg.jitter then delay * (1/2 + rand * (1/2)) else delay

/-- Observable trace of one `_generate_with_retry` run: its result (the
`Except.error` carries the re-raised last exception), the number of completion
calls issued, the jittered sleeps performed, and — as a ghost observation for
the backoff claim — the corresponding pre-jitter delays. -/
structure RetryTrace where
  outcome : Except ApiOutcome (String × TokenUsage)
  attemptsMade : ℕ
  sleeps : List ℚ
  nominals : List ℚ
deriving Repr

/-- The `for attempt in range(max_retries + 1)` loop of
`_generate_with_retry`; `fuel` counts the remaining iterations (the caller
passes `max_retries + 1`, making the zero-fuel branch — the Python fallback
`Exception("Generation failed after all retries")` for a loop that ends with
no recorded exception — unreachable). -/
def generateWithRetryGo (cfg : RetryConfig) (call : ℕ → ApiOutcome) (rand : ℕ → ℚ) :
    ℕ → ℕ → List ℚ → List ℚ → RetryTrace
  | _, 0, sleeps, noms =>
      ⟨.error (.apiError none "Generation failed after all retries"), 0, sleeps, noms⟩
  | attempt, fuel + 1, sleeps, noms =>
    match call attempt with
    | .success c u => ⟨.ok (c, u), attempt + 1, sleeps, noms⟩
    | o =>
      if o.retryable ∧ attempt < cfg.max_retries then
        generateWithRetryGo cfg call rand (attempt + 1) fuel
          (sleeps ++ [calculate_retry_delay cfg attempt o.baseOverride (rand attempt)])
          (noms ++ [nominalDelay cfg attempt o.baseOverride])
      else ⟨.error o, attempt + 1, sleeps, noms⟩

/-- The `_generate_with_retry` for one Calling phase, as a function of the
per-attempt API outcome `call` and the per-attempt jitter draws `rand`. -/
def generate_with_retry (cfg : RetryConfig) (call : ℕ → ApiOutcome) (rand : ℕ → ℚ) :
    RetryTrace :=
  generateWithRetryGo cfg call rand 0 (cfg.max_retries + 1) [] []

/-! ## Generation orchestrator (`OpenAIService`) -/

/-- The configuration surface the service reads at startup
(`settings.OPENAI_MODEL`, `OPENAI_MAX_TOKENS`, `OPENAI_TEMPERATURE`; config
defaults shown) plus its retry config and the registry of the prompt manager. -/
structure ServiceConfig where
  model : String := "gpt-4-turbo-preview"
  max_tokens : ℤ := 4000
  temperature : ℚ := 0.1
  retry_config : RetryConfig := {}
  templates : TemplateRegistry := defaultTemplates

/-- The `self.quality_focused_temperature` (constant set in `__init__`). -/
def quality_focused_temperature : ℚ := 0.1

/-- The `self.creativity_temperature` (constant set in `__init__`). -/
def creativity_temperature : ℚ := 0.3

/-- The generation-parameter dict built by `_adjust_generation_parameters`. -/
structure GenParams where
  model : String
  max_tokens : ℚ
  temperature : ℚ
deriving Repr, DecidableEq

/-- The `_adjust_generation_parameters`: temperature by generation type, token
budget by complexity (the `min(..., 6000)` cap lives only inside the Complex
branch), then persona scaling.  Python `int()` conversions are `Int.floor`
(their operands are non-negative for the non-negative configured budget). -/
def adjust_generation_parameters (S : ServiceConfig) (context : PromptContext)
    (_request : GenerationRequest) : GenParams :=
  let params : GenParams := ⟨S.model, (S.max_tokens : ℚ), S.temperature⟩
  let params :=
    if context.generation_type = .edge_case_focused then
      { params with temperature := creativity_temperature }
    else if context.generation_type = .standard then
      { params with temperature := quality_focused_temperature }
    else params
  let params :=
    if context.complexity = .complex then
      { params with max_tokens := min ((S.max_tokens : ℚ) * (3/2)) 6000 }
    else if context.complexity = .simple then
      { params with max_tokens := ((⌊(S.max_tokens : ℚ) * (7/10)⌋ : ℤ) : ℚ) }
    else params
  if context.generation_type = .persona_based ∧ (context.personas.getD []) ≠ [] then
    let persona_multiplier : ℚ := 1 + ((context.personas.getD []).length : ℚ) * (1/5)
    { params with max_tokens := ((⌊params.max_tokens * persona_multiplier⌋ : ℤ) : ℚ) }
  else params

/-- The fixed quality-enhancement block `_retry_with_enhanced_prompt` appends
to the rendered user prompt (verbatim). -/
def quality_enhancement : String :=
  "\n\nIMPORTANT: The previous generation had quality issues. Please ensure:\n1. Generate at least 5 comprehensive test cases\n2. Each test case has clear, specific steps\n3. Include realistic test data\n4. Provide detailed expected results\n5. Use proper JSON formatting\n6. Focus on practical, executable scenarios"

/-- The `quality_issues` hints gathered from the initial response. -/
def quality_issues_of (initial : ParsedResponse) : List String :=
  (if initial.test_cases.length < 3 then ["insufficient test cases"] else []) ++
  (if ¬initial.parsing_errors.isEmpty then ["parsing errors"] else [])

/-- The enhanced context built by `_retry_with_enhanced_prompt`: the
additional-context bag (created empty when absent or falsy) updated with the
quality-improvement flag, the prior-issue hints, the minimum test-case count
`max(5, max_test_cases // 2)` and the clarity flag. -/
def enhanced_context_of (context : PromptContext) (request : GenerationRequest)
    (initial : ParsedResponse) : PromptContext :=
  let base := context.additional_context.getD []
  let base := dictSet base "quality_improvement_needed" (.bool true)
  let base := dictSet base "previous_issues" (.arr ((quality_issues_of initial).map .str))
  let base := dictSet base "minimum_test_cases"
    (.num ((max 5 (request.max_test_cases / 2) : ℕ) : ℚ))
  let base := dictSet base "focus_on_clarity" (.bool true)
  { context with additional_context := some base }

/-- The enhanced generation parameters: re-adjusted for the enhanced context,
with the temperature raised by 0.1 and capped at 0.5. -/
def enhanced_params_of (S : ServiceConfig) (context : PromptContext)
    (request : GenerationRequest) (initial : ParsedResponse) : GenParams :=
  let p := adjust_generation_parameters S (enhanced_context_of context request initial) request
  { p with temperature := min (p.temperature + 1/10) (1/2) }

/-- The prompt-generation stage as seen by the `try` of a caller: `exc` injects a
Jinja rendering exception, and an unresolvable ultimate fallback surfaces the
`KeyError` (never reachable from the default registry). -/
def promptStage (S : ServiceConfig) (render : String → PromptContext → String)
    (exc : Option String) (ctx : PromptContext) : Except String PromptData :=
  match exc with
  | some m => .error m
  | none =>
    match generate_prompt S.templates render ctx with
    | none => .error "KeyError: saas_standard"
    | some pd => .ok pd

/-- Observable trace of one `_retry_with_enhanced_prompt` run; the
`enhanced_prompt` / `enhanced_params` fields are ghost observations of the
values the source builds before the enhanced completion call. -/
structure RetryAttemptTrace where
  result : Option ParsedResponse
  tracked : List TokenUsage
  enhanced_context : PromptContext
  enhanced_prompt : Option PromptData
  enhanced_params : Option GenParams

/-- The `_retry_with_enhanced_prompt`: builds the enhanced context, prompt and
parameters, re-runs Calling and Parsing once, tracks the extra token usage,
and returns `none` (swallowing the exception) if anything inside raises. -/
def retry_with_enhanced_prompt (S : ServiceConfig)
    (render : String → PromptContext → String)
    (extract : String → Option JsonPayload)
    (textParse : String → List String → List ParsedTestCase × List String)
    (pExc : Option String) (parseExc1 : Option (List String × String))
    (call1 : ℕ → ApiOutcome) (rand1 : ℕ → ℚ)
    (context : PromptContext) (request : GenerationRequest)
    (initial : ParsedResponse) : RetryAttemptTrace :=
  let ectx := enhanced_context_of context request initial
  match promptStage S render pExc ectx with
  | .error _ => ⟨none, [], ectx, none, none⟩
  | .ok ep0 =>
    let ep := { ep0 with user_prompt := ep0.user_prompt ++ quality_enhancement }
    let eparams := enhanced_params_of S context request initial
    match (generate_with_retry S.retry_config call1 rand1).outcome with
    | .error _ => ⟨none, [], ectx, some ep, some eparams⟩
    | .ok (raw, u) =>
        ⟨some (parse_response extract textParse raw ep.expected_format parseExc1),
         [u], ectx, some ep, some eparams⟩

/-- One API-shaped test case as emitted by `_convert_parsed_test_cases`. -/
structure ConvertedCase where
  title : String
  description : String
  prerequisites : List String
  test_steps : List TestStep
  expected_final_result : String
  classification : String
  priority : String
  test_type : String
  estimated_duration : ℤ
  tags : List String
deriving Repr

/-- The `_convert_parsed_test_cases`. -/
def convert_parsed_test_cases (cases : List ParsedTestCase) : List ConvertedCase :=
  cases.map fun c =>
    { title := c.title, description := c.description,
      prerequisites := c.prerequisites, test_steps := c.test_steps,
      expected_final_result := c.expected_final_result,
      classification := c.classification, priority := c.priority,
      test_type := c.test_type, estimated_duration := c.estimated_duration,
      tags := c.tags }

/-- One persona-shaped test case as emitted by `_convert_persona_test_cases`. -/
structure ConvertedPersonaCase where
  title : String
  description : String
  persona : Option String
  persona_context : Option String
  prerequisites : List String
  test_steps : List TestStep
  expected_final_result : String
  permission_validations : List String
  cross_persona_interactions : List String
  classification : String
  priority : String
deriving Repr

/-- The `_convert_persona_test_cases`. -/
def convert_persona_test_cases (groups : List (String × List ParsedTestCase)) :
    List (String × List ConvertedPersonaCase) :=
  groups.map fun g => (g.1, g.2.map fun c =>
    { title := c.title, description := c.description, persona := c.persona,
      persona_context := c.persona_context, prerequisites := c.prerequisites,
      test_steps := c.test_steps,
      expected_final_result := c.expected_final_result,
      permission_validations := c.permission_validations,
      cross_persona_interactions := c.cross_persona_interactions,
      classification := c.classification, priority := c.priority })

/-- The `d.get(k, 0) + 1` style counter update used for the classification
distribution. -/
def dictIncr (d : List (String × ℕ)) (k : String) : List (String × ℕ) :=
  dictSet d k ((dictGet d k).getD 0 + 1)

/-- Set insertion for `_identify_coverage_areas`; CPython set iteration order
is unspecified, so the embedding fixes first-insertion order. -/
def addUnique (l : List String) (s : String) : List String :=
  if l.contains s then l else l ++ [s]

/-- The per-case body of `_identify_coverage_areas`. -/
def coverageOfCase (acc : List String) (c : ParsedTestCase) : List String :=
  let acc := addUnique acc c.test_type
  let acc := c.tags.foldl addUnique acc
  let content := (c.title ++ " " ++ c.description).toLower
  let acc := if containsSubstr content "authentication" || containsSubstr content "login"
    then addUnique acc "authentication" else acc
  let acc := if containsSubstr content "permission" || containsSubstr content "authorization"
    then addUnique acc "authorization" else acc
  let acc := if containsSubstr content "data" || containsSubstr content "validation"
    then addUnique acc "data_validation" else acc
  let acc := if containsSubstr content "error" || containsSubstr content "exception"
    then addUnique acc "error_handling" else acc
  let acc := if containsSubstr content "performance" || containsSubstr content "load"
    then addUnique acc "performance" else acc
  let acc := if containsSubstr content "security" then addUnique acc "security" else acc
  let acc := if containsSubstr content "ui" || containsSubstr content "interface"
    then addUnique acc "user_interface" else acc
  if containsSubstr content "api" || containsSubstr content "service"
    then addUnique acc "api_integration" else acc

/-- The `_identify_coverage_areas`. -/
def identify_coverage_areas (cases : List ParsedTestCase) : List String :=
  cases.foldl coverageOfCase []

/-- The `_calculate_average_duration`. -/
def calculate_average_duration (cases : List ParsedTestCase) : ℚ :=
  if cases.isEmpty then 0
  else ((cases.map (·.estimated_duration)).sum : ℚ) / (cases.length : ℚ)

/-- The summary dict of `_build_summary` (field `automation_share` carries
the automation-ratio entry of the source). -/
structure SummaryData where
  total_test_cases : ℕ
  persona_test_cases : ℕ
  cross_persona_scenarios : ℕ
  classification_distribution : List (String × ℕ)
  automation_share : ℚ
  average_estimated_duration : ℚ
  coverage_areas : List String
  quality_score : ℚ
  parsing_success : Bool
  parsing_errors_count : ℕ
deriving Repr

/-- The `_build_summary`. -/
def build_summary (parsed : ParsedResponse) (_request : GenerationRequest) : SummaryData :=
  let total := parsed.test_cases.length
  let classifications := parsed.test_cases.foldl (fun d c => dictIncr d c.classification) []
  let automated := ((classifications.filter fun p =>
    p.1 = "api_automation" ∨ p.1 = "ui_automation").map (·.2)).sum
  { total_test_cases := total
    persona_test_cases := (parsed.persona_test_cases.map (·.2.length)).sum
    cross_persona_scenarios := parsed.cross_persona_scenarios.length
    classification_distribution := classifications
    automation_share := if 0 < total then (automated : ℚ) / (total : ℚ) else 0
    average_estimated_duration := calculate_average_duration parsed.test_cases
    coverage_areas := identify_coverage_areas parsed.test_cases
    quality_score := parsed.confidence_score
    parsing_success := parsed.parsing_success
    parsing_errors_count := parsed.parsing_errors.length }

/-- The metadata dict of `_build_generation_metadata` (the wall-clock
`generation_timestamp` entry is omitted). -/
structure GenMetadata where
  domain : String
  complexity : String
  generation_type : String
  template_used : String
  estimated_prompt_tokens : ℤ
  parsing_confidence : ℚ
  parsing_errors : List String
  model_used : String
  temperature_used : ℚ
deriving Repr

/-- The `_build_generation_metadata`. -/
def build_generation_metadata (S : ServiceConfig) (context : PromptContext)
    (prompt_data : PromptData) (parsed : ParsedResponse) : GenMetadata where
  domain := context.domain.value
  complexity := context.complexity.value
  generation_type := context.generation_type.value
  template_used := prompt_data.template_name
  estimated_prompt_tokens := prompt_data.estimated_tokens
  parsing_confidence := parsed.confidence_score
  parsing_errors := parsed.parsing_errors
  model_used := S.model
  temperature_used := S.temperature

/-- The `GenerationResult` (dataclass); the empty dicts of the failure branch are
`none`. -/
structure GenerationResult where
  test_cases : List ConvertedCase
  persona_test_cases : List (String × List ConvertedPersonaCase)
  cross_persona_scenarios : List JVal
  summary : Option SummaryData
  quality_score : ℚ
  confidence_score : ℚ
  token_usage : TokenUsage
  processing_time : ℚ
  generation_metadata : Option GenMetadata
  success : Bool
  error_message : Option String := none

/-- The `GenerationResult` built by the `except` branch of
`generate_test_cases`: failure flag, empty payload, zeroed token usage and
the exception text. -/
def failure_result (S : ServiceConfig) (elapsed : ℚ) (msg : String) : GenerationResult where
  test_cases := []
  persona_test_cases := []
  cross_persona_scenarios := []
  summary := none
  quality_score := 0
  confidence_score := 0
  token_usage := { model := S.model, prompt_tokens := 0, completion_tokens := 0,
                   total_tokens := 0 }
  processing_time := elapsed
  generation_metadata := none
  success := false
  error_message := some msg

/-- The success-path `GenerationResult` assembled at the end of
`generate_test_cases`: note that `token_usage` is always the usage of the first call,
 and `success` copies `parsing_success` of the (possibly replaced)
parsed response. -/
def build_generation_result (S : ServiceConfig) (context : PromptContext)
    (prompt_data : PromptData) (request : GenerationRequest)
    (parsed : ParsedResponse) (usage : TokenUsage) (elapsed : ℚ) : GenerationResult where
  test_cases := convert_parsed_test_cases parsed.test_cases
  persona_test_cases := convert_persona_test_cases parsed.persona_test_cases
  cross_persona_scenarios := parsed.cross_persona_scenarios
  summary := some (build_summary parsed request)
  quality_score := parsed.confidence_score
  confidence_score := parsed.confidence_score
  token_usage := usage
  processing_time := elapsed
  generation_metadata := some (build_generation_metadata S context prompt_data parsed)
  success := parsed.parsing_success
  error_message := none

/-- The entry steps of `generate_test_cases`: resolve a missing domain via
`_detect_domain`, a missing complexity via `_estimate_complexity`, and build
the `PromptContext` from the request. -/
def build_context (req : GenerationRequest) : PromptContext where
  domain := req.domain.getD (detect_domain req.user_story_description)
  complexity := req.complexity.getD (estimate_complexity req)
  generation_type := req.generation_type
  user_story_title := req.user_story_title
  user_story_description := req.user_story_description
  acceptance_criteria := req.acceptance_criteria
  additional_context := req.additional_context
  personas := req.personas
  business_rules := req.business_rules

/-- Observable trace of one `generate_test_cases` run: the returned result,
the sequence of `track_usage` side effects in order, the number of
enhanced-retry invocations, and ghost views of the final parsed response and
the retry attempt. -/
structure OrchTrace where
  result : GenerationResult
  tracked : List TokenUsage
  retryCount : ℕ
  finalParsed : Option ParsedResponse
  retryTrace : Option RetryAttemptTrace

/-- The `generate_test_cases`, the public entry point of the orchestrator.  Oracles:
`render` is Jinja substitution, `extract`/`textParse` the string machinery of the
parser, `promptExc k` / `parseExc k` inject exceptions into the `k`-th
prompt-generation / parse invocation (0 = initial, 1 = enhanced),
`apiCalls k` and `rand k` drive the `k`-th Calling phase, and `elapsed` is
the measured wall-clock duration. -/
def generate_test_cases (S : ServiceConfig) (render : String → PromptContext → String)
    (extract : String → Option JsonPayload)
    (textParse : String → List String → List ParsedTestCase × List String)
    (promptExc : ℕ → Option String) (parseExc : ℕ → Option (List String × String))
    (apiCalls : ℕ → ℕ → ApiOutcome) (rand : ℕ → ℕ → ℚ)
    (elapsed : ℚ) (req : GenerationRequest) : OrchTrace :=
  let context := build_context req
  match promptStage S render (promptExc 0) context with
  | .error e => ⟨failure_result S elapsed e, [], 0, none, none⟩
  | .ok prompt_data =>
    let _params := adjust_generation_parameters S context req
    match (generate_with_retry S.retry_config (apiCalls 0) (rand 0)).outcome with
    | .error o => ⟨failure_result S elapsed o.message, [], 0, none, none⟩
    | .ok (raw, usage) =>
      let parsed := parse_response extract textParse raw prompt_data.expected_format
        (parseExc 0)
      if parsed.confidence_score < req.quality_threshold then
        let t := retry_with_enhanced_prompt S render extract textParse (promptExc 1)
          (parseExc 1) (apiCalls 1) (rand 1) context req parsed
        let finalParsed :=
          match t.result with
          | some er =>
              if parsed.confidence_score < er.confidence_score then er else parsed
          | none => parsed
        ⟨build_generation_result S context prompt_data req finalParsed usage elapsed,
         t.tracked ++ [usage], 1, some finalParsed, some t⟩
      else
        ⟨build_generation_result S context prompt_data req parsed usage elapsed,
         [usage], 0, some parsed, none⟩

/-! ## Claim C4: the confidence-score algorithm -/

/-- The per-case points exactly as the claim states them: 20 if the title is
present with length > 5, 15 if the description is present with length > 10,
`min(30, 5 * stepCount)` if steps are present, 15 if the final expected
result is present, 10 if the classification is in the valid set, 5 if the
priority is in the valid set, 5 if the test type is present. -/
def spec_case_points (tc : ParsedTestCase) : ℕ :=
  (if tc.title ≠ "" ∧ 5 < tc.title.length then 20 else 0) +
  (if tc.description ≠ "" ∧ 10 < tc.description.length then 15 else 0) +
  (match tc.test_steps with
   | [] => 0
   | _ :: _ => min 30 (5 * tc.test_steps.length)) +
  (if tc.expected_final_result ≠ "" then 15 else 0) +
  (if tc.classification ∈ valid_classifications then 10 else 0) +
  (if tc.priority ∈ valid_priorities then 5 else 0) +
  (if tc.test_type ≠ "" then 5 else 0)

/-- The confidence formula of the claim: sum the per-case points, subtract 10 per
parsing error from the raw sum floored at 0, divide by `caseCount * 100`,
clamp to `[0, 1]`; zero cases yield 0. -/
def spec_confidence_score (cases : List ParsedTestCase) (errs : List String) : ℚ :=
  match cases with
  | [] => 0
  | _ :: _ =>
    let raw : ℤ := ((cases.map spec_case_points).sum : ℕ)
    let adjusted : ℤ := max 0 (raw - 10 * (errs.length : ℤ))
    max 0 (min 1 ((adjusted : ℚ) / ((cases.length : ℚ) * 100)))

/-! ## Specification-side definitions and concrete fixtures -/

/-- Concrete fixture: a trivial Jinja oracle. -/
def noRender : String → PromptContext → String := fun _ _ => ""

/-- Concrete fixture: JSON extraction that finds nothing. -/
def noExtract : String → Option JsonPayload := fun _ => none

/-- Concrete fixture: a free-text fallback that yields no sections. -/
def emptyTextParse : String → List String → List ParsedTestCase × List String :=
  fun _ errs => ([], errs)

/-- Concrete fixture: a JSON test case with steps and expected result but no
`description` key. -/
def descMissingTc : TcData where
  title := some "Valid login test"
  test_steps := some [.str "click login"]
  expected_final_result := some "ok"

/-- Concrete fixture: a payload holding only `descMissingTc`. -/
def descMissingPayload : JsonPayload where
  test_cases := some [.ok descMissingTc]

/-- A raw JSON step that the normalizer numbers by position: a dict without
an explicit `step_number`, or a plain string. -/
def RawStep.autoNumbered : RawStep → Bool
  | .dict none _ _ _ => true
  | .dict (some _) _ _ _ => false
  | .str _ => true
  | .other => false

/-- Concrete fixture: a JSON test case whose dict step carries the explicit
step number 7. -/
def stepSevenTc : TcData where
  title := some "Numbered case"
  test_steps := some [.dict (some 7) (some "do x") none none]

/-- Concrete fixture: a payload holding only `stepSevenTc`. -/
def stepSevenPayload : JsonPayload where
  test_cases := some [.ok stepSevenTc]

/-- A raw step the normalizer keeps (anything but a skipped non-dict,
non-string value). -/
def RawStep.kept : RawStep → Bool
  | .other => false
  | _ => true

/-- Structural completeness of a parsed case sufficient for a full 100-point
score after validation. -/
def FullTC (tc : ParsedTestCase) : Prop :=
  5 < tc.title.length ∧ 10 < tc.description.length ∧
  6 ≤ tc.test_steps.length ∧ tc.expected_final_result ≠ ""

/-- The per-item hypotheses of the round-trip claim: every field populated
(title longer than 5, description longer than 10, at least 6 steps all kept,
expected result present, valid classification / priority, test type present,
positive duration). -/
def FullyPopulated (d : TcData) : Prop :=
  5 < (d.title.getD "").length ∧
  10 < (d.description.getD "").length ∧
  6 ≤ (d.test_steps.getD []).length ∧
  (∀ s ∈ d.test_steps.getD [], s.kept = true) ∧
  (d.expected_final_result.getD "") ≠ "" ∧
  valid_classifications.contains (d.classification.getD "manual") = true ∧
  valid_priorities.contains (d.priority.getD "medium") = true ∧
  (d.test_type.getD "functional") ≠ "" ∧
  0 < d.estimated_duration.getD 10

/-- Concrete fixture: a fully populated test case with a single step. -/
def oneStepFullTc : TcData where
  title := some "Login page test"
  description := some "A complete description"
  test_steps := some [.str "click login"]
  expected_final_result := some "user logged in"
  classification := some "manual"
  priority := some "high"
  test_type := some "functional"
  estimated_duration := some 5

/-- Joint invariant of a (partial) `_generate_with_retry` run starting at
`attempt` with sleep/nominal logs `sleeps`/`noms`: bounded attempts, retries
only after retryable outcomes, the final call determines the outcome, and the
logs extend by exactly the per-attempt delay formula. -/
def RetrySpec (cfg : RetryConfig) (call : ℕ → ApiOutcome) (rand : ℕ → ℚ)
    (attempt : ℕ) (sleeps noms : List ℚ) (r : RetryTrace) : Prop :=
  r.attemptsMade ≤ cfg.max_retries + 1 ∧
  attempt < r.attemptsMade ∧
  (∀ k, attempt ≤ k → k + 1 < r.attemptsMade → (call k).retryable = true) ∧
  (∀ c u, r.outcome = .ok (c, u) → call (r.attemptsMade - 1) = .success c u) ∧
  (∀ o, r.outcome = .error o → call (r.attemptsMade - 1) = o) ∧
  r.sleeps = sleeps ++ ((List.range' attempt (r.attemptsMade - 1 - attempt)).map
    fun k => calculate_retry_delay cfg k (call k).baseOverride (rand k)) ∧
  r.nominals = noms ++ ((List.range' attempt (r.attemptsMade - 1 - attempt)).map
    fun k => nominalDelay cfg k (call k).baseOverride)

/-- Concrete fixture: a small token-usage record. -/
def smallUsage : TokenUsage where
  model := "gpt-4-turbo-preview"
  prompt_tokens := 1
  completion_tokens := 1
  total_tokens := 2

/-- Concrete fixture: a timeout, then a rate limit, then another timeout,
then success. -/
def mixedCalls : ℕ → ApiOutcome := fun k =>
  if k = 0 then .timeoutConn "timed out"
  else if k = 1 then .rateLimit "rate limited"
  else if k = 2 then .timeoutConn "timed out again"
  else .success "ok" smallUsage

/-- Concrete fixture: a Complex persona-based context with two personas. -/
def personaComplexCtx : PromptContext where
  domain := .general
  complexity := .complex
  generation_type := .persona_based
  user_story_title := "t"
  user_story_description := "d"
  acceptance_criteria := "a"
  personas := some ["admin", "viewer"]

/-- Concrete fixture: a minimal generation request. -/
def anyReq : GenerationRequest where
  user_story_title := "t"
  user_story_description := "d"
  acceptance_criteria := "a"

/-- Concrete fixture: a request with resolved domain and complexity and a
quality threshold of 1. -/
def lowReq : GenerationRequest where
  user_story_title := "t"
  user_story_description := "d"
  acceptance_criteria := "a"
  domain := some .general
  complexity := some .simple
  quality_threshold := 1

/-- Concrete fixture: first Calling phase succeeds, the enhanced one hits a
non-retryable 400 client error. -/
def cexCalls : ℕ → ℕ → ApiOutcome := fun i _ =>
  if i = 0 then .success "" smallUsage else .apiError (some 400) "bad request"

/-- Concrete fixture: every call of every Calling phase succeeds at once. -/
def allOkCalls : ℕ → ℕ → ApiOutcome := fun _ _ => .success "" smallUsage

/-- Concrete fixture: the prompt data the default registry yields for a
`general`/`standard` context under the trivial renderer. -/
def saasPromptData : PromptData where
  system_prompt := saas_system_prompt
  user_prompt := ""
  expected_format := standard_output_format
  quality_criteria := saas_quality_criteria
  template_name := "SaaS Standard Test Generation"
  estimated_tokens := 1100

/-- Concrete fixture: like `lowReq` but with a quality threshold of 0, so the
quality gate never fires. -/
def zeroReq : GenerationRequest where
  user_story_title := "t"
  user_story_description := "d"
  acceptance_criteria := "a"
  domain := some .general
  complexity := some .simple
  quality_threshold := 0

/-- Concrete fixture: a fully populated test case with six steps. -/
def sixStepTc : TcData where
  title := some "Login page test"
  description := some "A complete description"
  test_steps := some [.str "a1", .str "a2", .str "a3", .str "a4", .str "a5", .str "a6"]
  expected_final_result := some "user logged in"
  classification := some "manual"
  priority := some "high"
  test_type := some "functional"
  estimated_duration := some 5

/-- Concrete fixture: a Complex non-persona context. -/
def complexCtx : PromptContext where
  domain := .general
  complexity := .complex
  generation_type := .standard
  user_story_title := "t"
  user_story_description := "d"
  acceptance_criteria := "a"

/-- Concrete fixture: a context resolving to the finance standard template. -/
def finEdgeCtx : PromptContext where
  domain := .finance
  complexity := .medium
  generation_type := .performance_focused
  user_story_title := "t"
  user_story_description := "d"
  acceptance_criteria := "a"

theorem caseScore_eq_spec_case_points (tc : ParsedTestCase) :
    caseScore tc = spec_case_points tc := by
  unfold caseScore spec_case_points
  rcases tc with ⟨title, description, prerequisites, test_steps, efr, cls, pri, ty, dur,
    tags, p, pc, pv, cpi⟩
  cases test_steps <;>
    simp [List.isEmpty, Nat.mul_comm, List.elem_iff]

/-- Claim C4: for every validated test-case list and error list, the
confidence score of `_calculate_confidence_score` equals the formula of the claim
exactly, lies in `[0, 1]`, and is 0 for zero cases. -/
theorem confidence_score_matches_spec (cases : List ParsedTestCase) (errs : List String) :
    calculate_confidence_score cases errs = spec_confidence_score cases errs ∧
    0 ≤ calculate_confidence_score cases errs ∧
    calculate_confidence_score cases errs ≤ 1 ∧
    (cases = [] → calculate_confidence_score cases errs = 0) := by
  cases cases with
  | nil => simp [calculate_confidence_score, spec_confidence_score]
  | cons hd tl =>
    have hmap : (hd :: tl).map caseScore = (hd :: tl).map spec_case_points :=
      List.map_congr_left fun tc _ => caseScore_eq_spec_case_points tc
    have hMpos : (0 : ℚ) < ((hd :: tl).length : ℚ) * 100 := by
      apply mul_pos _ (by norm_num)
      exact_mod_cast Nat.succ_pos tl.length
    have hcalc : calculate_confidence_score (hd :: tl) errs =
        min 1 (((max 0 (((((hd :: tl).map caseScore).sum : ℕ) : ℤ) -
          (errs.length : ℤ) * 10) : ℤ) : ℚ) / (((hd :: tl).length : ℚ) * 100)) := by
      simp only [calculate_confidence_score, List.isEmpty_cons]
      norm_num
    have hspec : spec_confidence_score (hd :: tl) errs =
        max 0 (min 1 (((max 0 (((((hd :: tl).map caseScore).sum : ℕ) : ℤ) -
          (errs.length : ℤ) * 10) : ℤ) : ℚ) / (((hd :: tl).length : ℚ) * 100))) := by
      simp only [spec_confidence_score, ← hmap]
      ring_nf
    have hq : (0 : ℚ) ≤
        ((max 0 (((((hd :: tl).map caseScore).sum : ℕ) : ℤ) - (errs.length : ℤ) * 10) : ℤ) : ℚ) /
          (((hd :: tl).length : ℚ) * 100) := by
      apply div_nonneg _ (le_of_lt hMpos)
      exact_mod_cast le_max_left (0 : ℤ) _
    have hmin0 : (0 : ℚ) ≤ min 1
        ((((max 0 (((((hd :: tl).map caseScore).sum : ℕ) : ℤ) - (errs.length : ℤ) * 10)) : ℤ) : ℚ) /
          (((hd :: tl).length : ℚ) * 100)) :=
      le_min (by norm_num) hq
    refine ⟨?_, ?_, ?_, by simp⟩
    · rw [hcalc, hspec, max_eq_right hmin0]
    · rw [hcalc]; exact hmin0
    · rw [hcalc]; exact min_le_left _ _

/-! ## Claim C9: totality of `parse_response` -/

/-- Claim C9: `parse_response` is total — the normal path returns the
`ParsedResponse` of the body, and an exception escaping the `try` body (at any stage,
with error list `errs` accumulated and text `msg`) yields a `ParsedResponse`
with no test cases, failed parsing, zero confidence, the raw input preserved
and the exception text appended to the errors. -/
theorem parse_response_total (extract : String → Option JsonPayload)
    (textParse : String → List String → List ParsedTestCase × List String)
    (raw : String) (fmt : JVal) (errs : List String) (msg : String) :
    parse_response extract textParse raw fmt none =
      parse_response_body extract textParse raw fmt ∧
    (parse_response extract textParse raw fmt (some (errs, msg))).test_cases = [] ∧
    (parse_response extract textParse raw fmt (some (errs, msg))).parsing_success = false ∧
    (parse_response extract textParse raw fmt (some (errs, msg))).confidence_score = 0 ∧
    (parse_response extract textParse raw fmt (some (errs, msg))).raw_content = raw ∧
    (parse_response extract textParse raw fmt (some (errs, msg))).parsing_errors =
      errs ++ ["Critical parsing error: " ++ msg] :=
  ⟨rfl, rfl, rfl, rfl, rfl, rfl⟩

/-! ## Claim C10: `parsing_success` and `GenerationResult.success` -/

theorem parse_response_body_success_iff (extract : String → Option JsonPayload)
    (textParse : String → List String → List ParsedTestCase × List String)
    (raw : String) (fmt : JVal) :
    (parse_response_body extract textParse raw fmt).parsing_success =
      (parse_response_body extract textParse raw fmt).parsing_errors.isEmpty := by
  cases hx : extract raw with
  | none =>
      rcases ht : textParse raw [] with ⟨cs, es⟩
      rcases hv : validate_test_cases cs es with ⟨vs, es2⟩
      simp [parse_response_body, hx, ht, hv]
  | some jd =>
      rcases hj : parse_json_response jd [] with ⟨cs, pcs, cross, summ, es⟩
      rcases hv : validate_test_cases cs es with ⟨vs, es2⟩
      simp [parse_response_body, hx, hj, hv]

/-- Claim C10: `parsing_success` holds exactly when the accumulated error
list is empty; `GenerationResult.success` copies the flag of the final parsed
response; and a test case missing only its description is kept while recording a
parsing error — so every case can survive validation and the response still
fail, with a 10-point confidence penalty (a 60-point case scores 0.5). -/
theorem success_iff_no_parsing_errors (S : ServiceConfig)
    (render : String → PromptContext → String)
    (extract : String → Option JsonPayload)
    (textParse : String → List String → List ParsedTestCase × List String)
    (promptExc : ℕ → Option String) (parseExc : ℕ → Option (List String × String))
    (apiCalls : ℕ → ℕ → ApiOutcome) (rand : ℕ → ℕ → ℚ)
    (elapsed : ℚ) (req : GenerationRequest) (pr : ParsedResponse)
    (raw : String) (fmt : JVal)
    (hfin : (generate_test_cases S render extract textParse promptExc parseExc
      apiCalls rand elapsed req).finalParsed = some pr) :
    ((parse_response_body extract textParse raw fmt).parsing_success =
      (parse_response_body extract textParse raw fmt).parsing_errors.isEmpty) ∧
    ((generate_test_cases S render extract textParse promptExc parseExc
        apiCalls rand elapsed req).result.success = pr.parsing_success) ∧
    ((parse_response_body (fun _ => some descMissingPayload) emptyTextParse "r"
        (.obj [])).test_cases.length = 1 ∧
      (parse_response_body (fun _ => some descMissingPayload) emptyTextParse "r"
        (.obj [])).parsing_errors =
        ["Test case \x27Valid login test\x27 missing description"] ∧
      (parse_response_body (fun _ => some descMissingPayload) emptyTextParse "r"
        (.obj [])).parsing_success = false ∧
      (parse_response_body (fun _ => some descMissingPayload) emptyTextParse "r"
        (.obj [])).confidence_score = 1/2) := by
  refine ⟨parse_response_body_success_iff extract textParse raw fmt, ?_, ?_⟩
  · unfold generate_test_cases at hfin ⊢
    dsimp only at hfin ⊢
    set ps := promptStage S render (promptExc 0) (build_context req) with hps
    clear_value ps
    cases ps with
    | error e => simp at hfin
    | ok pd =>
      set go := (generate_with_retry S.retry_config (apiCalls 0) (rand 0)).outcome with hgo
      clear_value go
      cases go with
      | error o => simp at hfin
      | ok pr2 =>
        obtain ⟨raw2, usage2⟩ := pr2
        dsimp only at hfin ⊢
        by_cases hq : (parse_response extract textParse raw2 pd.expected_format
            (parseExc 0)).confidence_score < req.quality_threshold
        · rw [if_pos hq] at hfin ⊢
          dsimp only at hfin ⊢
          cases hfin
          rfl
        · rw [if_neg hq] at hfin ⊢
          dsimp only at hfin ⊢
          cases hfin
          rfl
  · refine ⟨by decide, by decide, by decide, ?_⟩
    norm_num +decide [parse_response_body, parse_json_response, parseJsonCases,
      parse_test_case_data, descMissingPayload, descMissingTc, validate_test_cases,
      validateGo, retitle, coerceFields, calculate_confidence_score, caseScore,
      valid_classifications, valid_priorities, valid_types, normalizeStepsGo,
      emptyTextParse, List.isEmpty]

/-! ## Claim C5: validator invariants -/

theorem coerceFields_title (tc : ParsedTestCase) : (coerceFields tc).title = tc.title := by
  unfold coerceFields; dsimp only; split_ifs <;> rfl

theorem coerceFields_description (tc : ParsedTestCase) :
    (coerceFields tc).description = tc.description := by
  unfold coerceFields; dsimp only; split_ifs <;> rfl

theorem coerceFields_test_steps (tc : ParsedTestCase) :
    (coerceFields tc).test_steps = tc.test_steps := by
  unfold coerceFields; dsimp only; split_ifs <;> rfl

theorem coerceFields_expected (tc : ParsedTestCase) :
    (coerceFields tc).expected_final_result = tc.expected_final_result := by
  unfold coerceFields; dsimp only; split_ifs <;> rfl

theorem coerceFields_duration_pos (tc : ParsedTestCase) :
    0 < (coerceFields tc).estimated_duration := by
  unfold coerceFields; dsimp only; split_ifs <;> (try dsimp only at *) <;> omega

theorem coerceFields_classification (tc : ParsedTestCase) :
    valid_classifications.contains (coerceFields tc).classification = true := by
  unfold coerceFields; dsimp only; split_ifs <;>
    simp_all +decide [valid_classifications]

theorem coerceFields_priority (tc : ParsedTestCase) :
    valid_priorities.contains (coerceFields tc).priority = true := by
  unfold coerceFields; dsimp only; split_ifs <;>
    simp_all +decide [valid_priorities]

theorem coerceFields_test_type (tc : ParsedTestCase) :
    (coerceFields tc).test_type ≠ "" := by
  unfold coerceFields; dsimp only; split_ifs <;>
    simp_all +decide [valid_types] <;> intro he <;> simp_all

theorem mem_validateGo (cases : List ParsedTestCase) :
    ∀ (i : ℕ) (errs : List String) (tc' : ParsedTestCase),
      tc' ∈ (validateGo i cases errs).1 →
      0 < tc'.estimated_duration ∧ ∃ tc ∈ cases, tc'.test_steps = tc.test_steps := by
  induction cases with
  | nil => intro i errs tc' h; simp [validateGo] at h
  | cons hd tl ih =>
    intro i errs tc' h
    rw [validateGo] at h
    dsimp only at h
    by_cases hs : (retitle i hd).test_steps.isEmpty
    · rw [if_pos hs] at h
      obtain ⟨hdur, tc, htc, hsteps⟩ := ih _ _ _ h
      exact ⟨hdur, tc, List.mem_cons_of_mem _ htc, hsteps⟩
    · rw [if_neg hs] at h
      rcases hv : validateGo (i + 1) tl
          (if (retitle i hd).description = "" then
            errs ++ ["Test case \x27" ++ (retitle i hd).title ++ "\x27 missing description"]
          else errs) with ⟨vs, es⟩
      rw [hv] at h
      rcases List.mem_cons.mp h with rfl | hmem
      · refine ⟨coerceFields_duration_pos (retitle i hd), hd, List.mem_cons_self _ _, ?_⟩
        rw [coerceFields_test_steps (retitle i hd)]
        unfold retitle
        split_ifs <;> rfl
      · obtain ⟨hdur, tc, htc, hsteps⟩ := ih _ _ _ (by rw [hv]; exact hmem)
        exact ⟨hdur, tc, List.mem_cons_of_mem _ htc, hsteps⟩

theorem mem_parseJsonCases (items : List (Except String TcData)) :
    ∀ (errs : List String) (tc : ParsedTestCase),
      tc ∈ (parseJsonCases items errs).1 →
      ∃ d, Except.ok d ∈ items ∧ tc = parse_test_case_data d := by
  induction items with
  | nil => intro errs tc h; simp [parseJsonCases] at h
  | cons it rest ih =>
    intro errs tc h
    cases it with
    | ok d =>
      rw [parseJsonCases] at h
      rcases hr : parseJsonCases rest errs with ⟨cs, es⟩
      rw [hr] at h
      rcases List.mem_cons.mp h with rfl | hmem
      · exact ⟨d, List.mem_cons_self _ _, rfl⟩
      · obtain ⟨d', hd', htc⟩ := ih _ _ (by rw [hr]; exact hmem)
        exact ⟨d', List.mem_cons_of_mem _ hd', htc⟩
    | error m =>
      rw [parseJsonCases] at h
      obtain ⟨d', hd', htc⟩ := ih _ _ h
      exact ⟨d', List.mem_cons_of_mem _ hd', htc⟩

theorem normalizeStepsGo_numbers (ss : List RawStep) :
    ∀ i : ℕ, (∀ s ∈ ss, s.autoNumbered = true) →
      (normalizeStepsGo i ss).map (·.step_number) =
        (List.range' (i + 1) ss.length).map (fun n => (n : ℤ)) ∧
      (normalizeStepsGo i ss).length = ss.length := by
  induction ss with
  | nil => intro i _; simp [normalizeStepsGo]
  | cons s rest ih =>
    intro i hall
    have hs := hall s (List.mem_cons_self _ _)
    have hrest := fun s hs => hall s (List.mem_cons_of_mem _ hs)
    obtain ⟨ihm, ihl⟩ := ih (i + 1) hrest
    cases s with
    | dict sn a er td =>
      cases sn with
      | none =>
          simp only [normalizeStepsGo, List.map_cons, List.length_cons, ihm, ihl,
            Option.getD_none, List.range'_succ]
          simp
      | some n => simp [RawStep.autoNumbered] at hs
    | str s =>
        simp only [normalizeStepsGo, List.map_cons, List.length_cons, ihm, ihl,
          List.range'_succ]
        simp
    | other => simp [RawStep.autoNumbered] at hs

/-- Claim C5, counterexample: a JSON step with an explicit `step_number` of 7
survives validation un-renumbered, so the step numbers of the surviving case are
`[7]`, not the contiguous `[1]` the claim asserts. -/
theorem json_step_number_not_renumbered :
    (parse_response (fun _ => some stepSevenPayload) emptyTextParse "r" (.obj [])
        none).test_cases.map (fun tc => tc.test_steps.map (·.step_number)) = [[7]] ∧
    ([[7]] : List (List ℤ)) ≠ [[1]] := by
  constructor
  · decide
  · decide

/-- Claim C5, amended: every test case surviving `_validate_test_cases` has a
positive estimated duration (for any input whatsoever); and step numbers are
the contiguous `1..len(test_steps)` for JSON-path cases whose raw steps are
all position-numbered (strings, or dicts without an explicit `step_number`) —
an explicit `step_number` on a dict step is kept as-is, not renumbered. -/
theorem validated_cases_invariants
    (extract : String → Option JsonPayload)
    (textParse textParse2 : String → List String → List ParsedTestCase × List String)
    (raw fmt exc raw2 fmt2 : _) (payload : JsonPayload)
    (hauto : ∀ it ∈ payload.test_cases.getD [], ∀ d, it = Except.ok d →
      ∀ s ∈ d.test_steps.getD [], s.autoNumbered = true) :
    (∀ tc' ∈ (parse_response extract textParse raw fmt exc).test_cases,
      0 < tc'.estimated_duration) ∧
    (∀ tc' ∈ (parse_response (fun _ => some payload) textParse2 raw2 fmt2
        none).test_cases,
      tc'.test_steps.map (·.step_number) =
        (List.range' 1 tc'.test_steps.length).map (fun n => (n : ℤ))) := by
  constructor
  · intro tc' h
    cases exc with
    | some p => cases p with | mk errs msg => simp [parse_response, parse_response_failure] at h
    | none =>
      simp only [parse_response] at h
      cases hx : extract raw with
      | none =>
        rcases ht : textParse raw [] with ⟨cs, es⟩
        rw [parse_response_body] at h
        rw [hx] at h
        dsimp only at h
        rw [ht] at h
        dsimp only at h
        rcases hv : validate_test_cases cs es with ⟨vs, es2⟩
        rw [hv] at h
        exact (mem_validateGo cs 0 es tc' (by rw [show validateGo 0 cs es = (vs, es2) from hv]; exact h)).1
      | some jd =>
        rcases hj : parse_json_response jd [] with ⟨cs, pcs, cross, summ, es⟩
        rw [parse_response_body, hx] at h
        dsimp only at h
        rw [hj] at h
        dsimp only at h
        rcases hv : validate_test_cases cs es with ⟨vs, es2⟩
        rw [hv] at h
        exact (mem_validateGo cs 0 es tc' (by rw [show validateGo 0 cs es = (vs, es2) from hv]; exact h)).1
  · intro tc' h
    simp only [parse_response, parse_response_body] at h
    rcases hj : parse_json_response payload [] with ⟨cs, pcs, cross, summ, es⟩
    rw [hj] at h
    dsimp only at h
    rcases hv : validate_test_cases cs es with ⟨vs, es2⟩
    rw [hv] at h
    obtain ⟨_, tc, htc, hsteps⟩ :=
      mem_validateGo cs 0 es tc' (by rw [show validateGo 0 cs es = (vs, es2) from hv]; exact h)
    have hcs : cs = (parse_json_response payload []).1 := by rw [hj]
    rw [hcs] at htc
    unfold parse_json_response at htc
    dsimp only at htc
    rcases hpc : payload.test_cases with _ | items
    · rw [hpc] at htc; simp at htc
    · rw [hpc] at htc
      dsimp only at htc
      rcases hc : parseJsonCases items [] with ⟨cs0, es0⟩
      rw [hc] at htc
      dsimp only at htc
      obtain ⟨d, hd, rfl⟩ := mem_parseJsonCases items []
        tc (by rw [show parseJsonCases items [] = (cs0, es0) from hc]; exact htc)
      have hsteps' : ∀ s ∈ d.test_steps.getD [], s.autoNumbered = true := by
        intro s hs
        exact hauto (Except.ok d) (by rw [hpc]; exact hd) d rfl s hs
      rw [hsteps]
      have := normalizeStepsGo_numbers (d.test_steps.getD []) 0 hsteps'
      show (parse_test_case_data d).test_steps.map (·.step_number) = _
      unfold parse_test_case_data
      dsimp only
      rw [this.1, this.2]

/-! ## Claim C6: JSON round-trip -/

theorem normalizeStepsGo_length_kept (ss : List RawStep) :
    ∀ i : ℕ, (∀ s ∈ ss, s.kept = true) →
      (normalizeStepsGo i ss).length = ss.length := by
  induction ss with
  | nil => intro i _; simp [normalizeStepsGo]
  | cons s rest ih =>
    intro i hall
    have hs := hall s (List.mem_cons_self _ _)
    have hrest := ih (i + 1) fun s hs => hall s (List.mem_cons_of_mem _ hs)
    cases s with
    | dict sn a er td => simp [normalizeStepsGo, hrest]
    | str s => simp [normalizeStepsGo, hrest]
    | other => simp [RawStep.kept] at hs

theorem parseJsonCases_ok (items : List TcData) :
    ∀ errs : List String,
      parseJsonCases (items.map Except.ok) errs = (items.map parse_test_case_data, errs) := by
  induction items with
  | nil => intro errs; simp [parseJsonCases]
  | cons d rest ih =>
    intro errs
    simp only [List.map_cons, parseJsonCases, ih errs]

theorem caseScore_eq_100 (tc : ParsedTestCase)
    (h1 : 5 < tc.title.length) (h2 : 10 < tc.description.length)
    (h3 : 6 ≤ tc.test_steps.length) (h4 : tc.expected_final_result ≠ "")
    (h5 : valid_classifications.contains tc.classification = true)
    (h6 : valid_priorities.contains tc.priority = true)
    (h7 : tc.test_type ≠ "") : caseScore tc = 100 := by
  have t1 : tc.title ≠ "" := by
    intro he; rw [he] at h1; simp at h1
  have t2 : tc.description ≠ "" := by
    intro he; rw [he] at h2; simp at h2
  have t3 : ¬tc.test_steps.isEmpty := by
    cases h : tc.test_steps with
    | nil => rw [h] at h3; simp at h3
    | cons a l => simp [h]
  have t4 : min 30 (tc.test_steps.length * 5) = 30 := by omega
  unfold caseScore
  rw [if_pos ⟨t1, h1⟩, if_pos ⟨t2, h2⟩, if_pos t3, t4, if_pos h4, if_pos h5,
    if_pos h6, if_pos h7]

theorem retitle_of_nonempty (i : ℕ) (tc : ParsedTestCase) (h : tc.title ≠ "") :
    retitle i tc = tc := by
  unfold retitle; rw [if_neg h]

theorem validateGo_full (cases : List ParsedTestCase) :
    ∀ (i : ℕ) (errs : List String), (∀ tc ∈ cases, FullTC tc) →
      (validateGo i cases errs).2 = errs ∧
      (validateGo i cases errs).1.length = cases.length ∧
      ∀ tc' ∈ (validateGo i cases errs).1, caseScore tc' = 100 := by
  induction cases with
  | nil => intro i errs _; simp [validateGo]
  | cons hd tl ih =>
    intro i errs hall
    obtain ⟨h1, h2, h3, h4⟩ := hall hd (List.mem_cons_self _ _)
    have hrest := fun tc h => hall tc (List.mem_cons_of_mem _ h)
    have t1 : hd.title ≠ "" := by intro he; rw [he] at h1; simp at h1
    have t2 : hd.description ≠ "" := by intro he; rw [he] at h2; simp at h2
    have t3 : ¬hd.test_steps.isEmpty = true := by
      cases h : hd.test_steps with
      | nil => rw [h] at h3; simp at h3
      | cons a l => simp [h]
    rw [validateGo]
    dsimp only
    rw [retitle_of_nonempty i hd t1, if_neg t2, if_neg t3]
    rcases hv : validateGo (i + 1) tl errs with ⟨vs, es⟩
    obtain ⟨he, hl, hs⟩ := ih (i + 1) errs hrest
    rw [hv] at he hl hs
    dsimp only at he hl hs ⊢
    refine ⟨he, by simp [hl], ?_⟩
    intro tc' htc'
    rcases List.mem_cons.mp htc' with rfl | hmem
    · refine caseScore_eq_100 _ ?_ ?_ ?_ ?_ (coerceFields_classification hd)
        (coerceFields_priority hd) (coerceFields_test_type hd)
      · rw [coerceFields_title]; exact h1
      · rw [coerceFields_description]; exact h2
      · rw [coerceFields_test_steps]; exact h3
      · rw [coerceFields_expected]; exact h4
    · exact hs tc' hmem

theorem parse_full (d : TcData) (h : FullyPopulated d) :
    FullTC (parse_test_case_data d) := by
  obtain ⟨h1, h2, h3, h4, h5, _⟩ := h
  refine ⟨?_, ?_, ?_, ?_⟩
  · cases ht : d.title with
    | none => rw [ht] at h1; simp at h1
    | some t => rw [ht] at h1; simpa [parse_test_case_data, ht] using h1
  · simpa [parse_test_case_data] using h2
  · show 6 ≤ (normalizeStepsGo 0 (d.test_steps.getD [])).length
    rw [normalizeStepsGo_length_kept _ 0 h4]; exact h3
  · simpa [parse_test_case_data] using h5

theorem sum_map_eq_100_mul {cases : List ParsedTestCase}
    (h : ∀ tc ∈ cases, caseScore tc = 100) :
    (cases.map caseScore).sum = 100 * cases.length := by
  induction cases with
  | nil => simp
  | cons hd tl ih =>
    have := h hd (List.mem_cons_self _ _)
    simp only [List.map_cons, List.sum_cons, this, List.length_cons,
      ih fun tc ht => h tc (List.mem_cons_of_mem _ ht)]
    ring

/-- Claim C6, amended: a well-formed JSON payload of `N` fully populated test
cases — where full population must include a title longer than 5 characters,
a description longer than 10, and at least 6 steps so that every per-case
score actually reaches 100 — round-trips through `parse_response` to exactly
`N` test cases, no parsing errors, and a confidence score of exactly 1 (the
error penalty being 0). -/
theorem json_round_trip (items : List TcData)
    (textParse : String → List String → List ParsedTestCase × List String)
    (raw : String) (fmt : JVal) (hne : items ≠ [])
    (hfull : ∀ d ∈ items, FullyPopulated d) :
    (parse_response (fun _ => some { test_cases := some (items.map Except.ok) })
        textParse raw fmt none).test_cases.length = items.length ∧
    (parse_response (fun _ => some { test_cases := some (items.map Except.ok) })
        textParse raw fmt none).parsing_errors = [] ∧
    (parse_response (fun _ => some { test_cases := some (items.map Except.ok) })
        textParse raw fmt none).parsing_success = true ∧
    (parse_response (fun _ => some { test_cases := some (items.map Except.ok) })
        textParse raw fmt none).confidence_score = 1 := by
  have hj : parse_json_response { test_cases := some (items.map Except.ok) } [] =
      (items.map parse_test_case_data, [], [], .obj [], []) := by
    unfold parse_json_response
    dsimp only
    rw [parseJsonCases_ok items []]
    rfl
  have hfull' : ∀ tc ∈ items.map parse_test_case_data, FullTC tc := by
    intro tc htc
    obtain ⟨d, hd, rfl⟩ := List.mem_map.mp htc
    exact parse_full d (hfull d hd)
  obtain ⟨he, hl, hs⟩ := validateGo_full (items.map parse_test_case_data) 0 [] hfull'
  rcases hv : validateGo 0 (items.map parse_test_case_data) [] with ⟨vs, es⟩
  rw [hv] at he hl hs
  dsimp only at he hl hs
  have hlen : vs.length = items.length := by rw [hl, List.length_map]
  have hvs_ne : ¬vs.isEmpty := by
    cases h : vs with
    | nil => rw [h] at hlen; exact absurd hlen.symm (by simpa using hne)
    | cons a l => simp [h]
  have hvpos : (0 : ℚ) < (vs.length : ℚ) := by
    cases h : vs with
    | nil => rw [h] at hvs_ne; simp at hvs_ne
    | cons a l => exact_mod_cast Nat.succ_pos l.length
  have hne' : ((vs.length : ℚ)) ≠ 0 := ne_of_gt hvpos
  have hconf : calculate_confidence_score vs es = 1 := by
    have hsum : (vs.map caseScore).sum = 100 * vs.length := sum_map_eq_100_mul hs
    unfold calculate_confidence_score
    rw [if_neg hvs_ne, he, hsum]
    simp only [List.length_nil, Nat.cast_zero, Int.cast_zero, zero_mul, sub_zero]
    push_cast
    rw [max_eq_right (by positivity), mul_comm ((vs.length : ℚ)) 100,
      div_self (mul_ne_zero (by norm_num) hne'), min_self]
  simp only [parse_response, parse_response_body, hj]
  rw [show validate_test_cases (items.map parse_test_case_data) [] = (vs, es) from hv]
  rw [he] at hconf ⊢
  exact ⟨by rw [hlen], rfl, rfl, by rw [hconf]⟩

/-- Claim C6, counterexample: a payload with one fully populated test case
(title, description, steps, expected result, valid classification, priority,
test type, positive duration — but only one step) parses with no errors yet
scores 0.75, not the 1.0 the claim asserts for zero error penalty. -/
theorem round_trip_confidence_below_one :
    (parse_response (fun _ => some { test_cases := some [.ok oneStepFullTc] })
        emptyTextParse "r" (.obj []) none).test_cases.length = 1 ∧
    (parse_response (fun _ => some { test_cases := some [.ok oneStepFullTc] })
        emptyTextParse "r" (.obj []) none).parsing_errors = [] ∧
    (parse_response (fun _ => some { test_cases := some [.ok oneStepFullTc] })
        emptyTextParse "r" (.obj []) none).confidence_score = 3/4 ∧
    ((3 : ℚ)/4) ≠ 1 := by
  refine ⟨by decide, by decide, ?_, by norm_num⟩
  norm_num +decide [parse_response, parse_response_body, parse_json_response,
    parseJsonCases, parse_test_case_data, oneStepFullTc, validate_test_cases,
    validateGo, retitle, coerceFields, calculate_confidence_score, caseScore,
    valid_classifications, valid_priorities, valid_types, normalizeStepsGo,
    emptyTextParse, List.isEmpty]

/-! ## Claim C8: template selection -/

theorem dictGet_map_keyfix {α : Type} (d : List (String × α)) (k k' : String) (v : α) :
    (dictGet (d.map (fun p => if p.1 = k then (k, v) else p)) k').isSome =
      (dictGet d k').isSome := by
  induction d with
  | nil => rfl
  | cons a tl ih =>
    by_cases hak : a.1 = k
    · by_cases hk' : a.1 = k'
      · simp [dictGet, List.find?_cons, hak, hk', hak ▸ hk']
      · have : ¬((k : String) = k') := by rw [← hak]; exact hk'
        simpa [dictGet, List.find?_cons, hak, hk', this] using ih
    · by_cases hk' : a.1 = k'
      · have hkk : ¬(k' = k) := fun he => hak (hk'.trans he)
        simp [dictGet, List.find?_cons, hak, hk', hkk]
      · simpa [dictGet, List.find?_cons, hak, hk'] using ih

theorem dictGet_append_isSome {α : Type} (d l : List (String × α)) (k' : String)
    (h : (dictGet d k').isSome) : (dictGet (d ++ l) k').isSome := by
  simp [dictGet] at h ⊢
  exact Or.inl h

theorem dictGet_dictSet_isSome {α : Type} (d : List (String × α)) (k k' : String) (v : α)
    (h : (dictGet d k').isSome) : (dictGet (dictSet d k v) k').isSome := by
  unfold dictSet
  split_ifs with hany
  · rw [dictGet_map_keyfix]; exact h
  · exact dictGet_append_isSome d [(k, v)] k' h

theorem registry_total (customs : List PromptTemplate) :
    (dictGet (customs.foldl add_custom_template defaultTemplates) "saas_standard").isSome := by
  have base : (dictGet defaultTemplates "saas_standard").isSome := by decide
  suffices h : ∀ reg : TemplateRegistry, (dictGet reg "saas_standard").isSome →
      (dictGet (customs.foldl add_custom_template reg) "saas_standard").isSome from
    h defaultTemplates base
  induction customs with
  | nil => intro reg h; simpa using h
  | cons t rest ih =>
    intro reg h
    exact ih (add_custom_template reg t) (dictGet_dictSet_isSome reg _ _ t h)

/-- Claim C8: over any registry built from the defaults by registering custom
templates, `get_optimal_template` always returns a template, and its lookup
order is exact `(domain, generationType)` key, then `(domain, "standard")`,
then the bare generation-type key, then the `"saas_standard"` fallback. -/
theorem template_selection_total_and_ordered (customs : List PromptTemplate)
    (ctx : PromptContext) (t : PromptTemplate) :
    ((get_optimal_template (customs.foldl add_custom_template defaultTemplates) ctx).isSome
      = true) ∧
    (dictGet (customs.foldl add_custom_template defaultTemplates)
        (ctx.domain.value ++ "_" ++ ctx.generation_type.value) = some t →
      get_optimal_template (customs.foldl add_custom_template defaultTemplates) ctx = some t) ∧
    (dictGet (customs.foldl add_custom_template defaultTemplates)
        (ctx.domain.value ++ "_" ++ ctx.generation_type.value) = none →
      dictGet (customs.foldl add_custom_template defaultTemplates)
        (ctx.domain.value ++ "_standard") = some t →
      get_optimal_template (customs.foldl add_custom_template defaultTemplates) ctx = some t) ∧
    (dictGet (customs.foldl add_custom_template defaultTemplates)
        (ctx.domain.value ++ "_" ++ ctx.generation_type.value) = none →
      dictGet (customs.foldl add_custom_template defaultTemplates)
        (ctx.domain.value ++ "_standard") = none →
      dictGet (customs.foldl add_custom_template defaultTemplates)
        ctx.generation_type.value = some t →
      get_optimal_template (customs.foldl add_custom_template defaultTemplates) ctx = some t) ∧
    (dictGet (customs.foldl add_custom_template defaultTemplates)
        (ctx.domain.value ++ "_" ++ ctx.generation_type.value) = none →
      dictGet (customs.foldl add_custom_template defaultTemplates)
        (ctx.domain.value ++ "_standard") = none →
      dictGet (customs.foldl add_custom_template defaultTemplates)
        ctx.generation_type.value = none →
      get_optimal_template (customs.foldl add_custom_template defaultTemplates) ctx =
        dictGet (customs.foldl add_custom_template defaultTemplates) "saas_standard") := by
  refine ⟨?_, ?_, ?_, ?_, ?_⟩
  · unfold get_optimal_template
    cases h1 : dictGet (customs.foldl add_custom_template defaultTemplates)
        (ctx.domain.value ++ "_" ++ ctx.generation_type.value) with
    | some t1 => simp
    | none =>
      cases h2 : dictGet (customs.foldl add_custom_template defaultTemplates)
          (ctx.domain.value ++ "_standard") with
      | some t2 => simp
      | none =>
        cases h3 : dictGet (customs.foldl add_custom_template defaultTemplates)
            ctx.generation_type.value with
        | some t3 => simp
        | none => simpa using registry_total customs
  · intro h1; unfold get_optimal_template; rw [h1]
  · intro h1 h2; unfold get_optimal_template; rw [h1, h2]
  · intro h1 h2 h3; unfold get_optimal_template; rw [h1, h2, h3]
  · intro h1 h2 h3; unfold get_optimal_template; rw [h1, h2, h3]

/-! ## Claim C3: the retry policy -/

theorem generateWithRetryGo_spec (cfg : RetryConfig) (call : ℕ → ApiOutcome)
    (rand : ℕ → ℚ) :
    ∀ (fuel attempt : ℕ) (sleeps noms : List ℚ),
      attempt ≤ cfg.max_retries → attempt + fuel = cfg.max_retries + 1 →
      RetrySpec cfg call rand attempt sleeps noms
        (generateWithRetryGo cfg call rand attempt fuel sleeps noms) := by
  intro fuel
  induction fuel with
  | zero => intro attempt sleeps noms hle hsum; omega
  | succ fuel ih =>
    intro attempt sleeps noms hle hsum
    cases hc : call attempt with
    | success c u =>
      simp only [generateWithRetryGo, hc]
      unfold RetrySpec
      dsimp only
      refine ⟨by omega, by omega, fun k hk1 hk2 => absurd hk2 (by omega), ?_, ?_, ?_, ?_⟩
      · intro c' u' h
        simp only [Except.ok.injEq, Prod.mk.injEq] at h
        simpa [Nat.add_sub_cancel, h.1, h.2] using hc
      · intro o h; simp at h
      · simp [Nat.add_sub_cancel]
      · simp [Nat.add_sub_cancel]
    | rateLimit m =>
      simp only [generateWithRetryGo, hc]
      unfold RetrySpec
      split_ifs with hcond
      · have hih := ih (attempt + 1)
          (sleeps ++ [calculate_retry_delay cfg attempt (ApiOutcome.rateLimit m).baseOverride
            (rand attempt)])
          (noms ++ [nominalDelay cfg attempt (ApiOutcome.rateLimit m).baseOverride])
          (by omega) (by omega)
        unfold RetrySpec at hih
        obtain ⟨i1, i2, i3, i4, i5, i6, i7⟩ := hih
        refine ⟨i1, by omega, ?_, i4, i5, ?_, ?_⟩
        · intro k hk1 hk2
          rcases Nat.eq_or_lt_of_le hk1 with rfl | hk1'
          · rw [hc]; exact hcond.1
          · exact i3 k hk1' hk2
        · rw [i6, show (generateWithRetryGo cfg call rand (attempt + 1) fuel
              (sleeps ++ [calculate_retry_delay cfg attempt
                (ApiOutcome.rateLimit m).baseOverride (rand attempt)])
              (noms ++ [nominalDelay cfg attempt
                (ApiOutcome.rateLimit m).baseOverride])).attemptsMade - 1 - attempt =
              ((generateWithRetryGo cfg call rand (attempt + 1) fuel
              (sleeps ++ [calculate_retry_delay cfg attempt
                (ApiOutcome.rateLimit m).baseOverride (rand attempt)])
              (noms ++ [nominalDelay cfg attempt
                (ApiOutcome.rateLimit m).baseOverride])).attemptsMade - 1 - (attempt + 1)) + 1
            from by omega, List.range'_succ, List.map_cons, List.append_assoc,
            List.singleton_append, hc]
        · rw [i7, show (generateWithRetryGo cfg call rand (attempt + 1) fuel
              (sleeps ++ [calculate_retry_delay cfg attempt
                (ApiOutcome.rateLimit m).baseOverride (rand attempt)])
              (noms ++ [nominalDelay cfg attempt
                (ApiOutcome.rateLimit m).baseOverride])).attemptsMade - 1 - attempt =
              ((generateWithRetryGo cfg call rand (attempt + 1) fuel
              (sleeps ++ [calculate_retry_delay cfg attempt
                (ApiOutcome.rateLimit m).baseOverride (rand attempt)])
              (noms ++ [nominalDelay cfg attempt
                (ApiOutcome.rateLimit m).baseOverride])).attemptsMade - 1 - (attempt + 1)) + 1
            from by omega, List.range'_succ, List.map_cons, List.append_assoc,
            List.singleton_append, hc]
      · dsimp only
        refine ⟨by omega, by omega, fun k hk1 hk2 => absurd hk2 (by omega), ?_, ?_, ?_, ?_⟩
        · intro c' u' h; simp at h
        · intro o h
          simp only [Except.error.injEq] at h
          simpa [Nat.add_sub_cancel, ← h] using hc
        · simp [Nat.add_sub_cancel]
        · simp [Nat.add_sub_cancel]
    | timeoutConn m =>
      simp only [generateWithRetryGo, hc]
      unfold RetrySpec
      split_ifs with hcond
      · have hih := ih (attempt + 1)
          (sleeps ++ [calculate_retry_delay cfg attempt (ApiOutcome.timeoutConn m).baseOverride
            (rand attempt)])
          (noms ++ [nominalDelay cfg attempt (ApiOutcome.timeoutConn m).baseOverride])
          (by omega) (by omega)
        unfold RetrySpec at hih
        obtain ⟨i1, i2, i3, i4, i5, i6, i7⟩ := hih
        refine ⟨i1, by omega, ?_, i4, i5, ?_, ?_⟩
        · intro k hk1 hk2
          rcases Nat.eq_or_lt_of_le hk1 with rfl | hk1'
          · rw [hc]; exact hcond.1
          · exact i3 k hk1' hk2
        · rw [i6, show (generateWithRetryGo cfg call rand (attempt + 1) fuel
              (sleeps ++ [calculate_retry_delay cfg attempt
                (ApiOutcome.timeoutConn m).baseOverride (rand attempt)])
              (noms ++ [nominalDelay cfg attempt
                (ApiOutcome.timeoutConn m).baseOverride])).attemptsMade - 1 - attempt =
              ((generateWithRetryGo cfg call rand (attempt + 1) fuel
              (sleeps ++ [calculate_retry_delay cfg attempt
                (ApiOutcome.timeoutConn m).baseOverride (rand attempt)])
              (noms ++ [nominalDelay cfg attempt
                (ApiOutcome.timeoutConn m).baseOverride])).attemptsMade - 1 - (attempt + 1)) + 1
            from by omega, List.range'_succ, List.map_cons, List.append_assoc,
            List.singleton_append, hc]
        · rw [i7, show (generateWithRetryGo cfg call rand (attempt + 1) fuel
              (sleeps ++ [calculate_retry_delay cfg attempt
                (ApiOutcome.timeoutConn m).baseOverride (rand attempt)])
              (noms ++ [nominalDelay cfg attempt
                (ApiOutcome.timeoutConn m).baseOverride])).attemptsMade - 1 - attempt =
              ((generateWithRetryGo cfg call rand (attempt + 1) fuel
              (sleeps ++ [calculate_retry_delay cfg attempt
                (ApiOutcome.timeoutConn m).baseOverride (rand attempt)])
              (noms ++ [nominalDelay cfg attempt
                (ApiOutcome.timeoutConn m).baseOverride])).attemptsMade - 1 - (attempt + 1)) + 1
            from by omega, List.range'_succ, List.map_cons, List.append_assoc,
            List.singleton_append, hc]
      · dsimp only
        refine ⟨by omega, by omega, fun k hk1 hk2 => absurd hk2 (by omega), ?_, ?_, ?_, ?_⟩
        · intro c' u' h; simp at h
        · intro o h
          simp only [Except.error.injEq] at h
          simpa [Nat.add_sub_cancel, ← h] using hc
        · simp [Nat.add_sub_cancel]
        · simp [Nat.add_sub_cancel]
    | apiError st m =>
      simp only [generateWithRetryGo, hc]
      unfold RetrySpec
      split_ifs with hcond
      · have hih := ih (attempt + 1)
          (sleeps ++ [calculate_retry_delay cfg attempt (ApiOutcome.apiError st m).baseOverride
            (rand attempt)])
          (noms ++ [nominalDelay cfg attempt (ApiOutcome.apiError st m).baseOverride])
          (by omega) (by omega)
        unfold RetrySpec at hih
        obtain ⟨i1, i2, i3, i4, i5, i6, i7⟩ := hih
        refine ⟨i1, by omega, ?_, i4, i5, ?_, ?_⟩
        · intro k hk1 hk2
          rcases Nat.eq_or_lt_of_le hk1 with rfl | hk1'
          · rw [hc]; exact hcond.1
          · exact i3 k hk1' hk2
        · rw [i6, show (generateWithRetryGo cfg call rand (attempt + 1) fuel
              (sleeps ++ [calculate_retry_delay cfg attempt
                (ApiOutcome.apiError st m).baseOverride (rand attempt)])
              (noms ++ [nominalDelay cfg attempt
                (ApiOutcome.apiError st m).baseOverride])).attemptsMade - 1 - attempt =
              ((generateWithRetryGo cfg call rand (attempt + 1) fuel
              (sleeps ++ [calculate_retry_delay cfg attempt
                (ApiOutcome.apiError st m).baseOverride (rand attempt)])
              (noms ++ [nominalDelay cfg attempt
                (ApiOutcome.apiError st m).baseOverride])).attemptsMade - 1 - (attempt + 1)) + 1
            from by omega, List.range'_succ, List.map_cons, List.append_assoc,
            List.singleton_append, hc]
        · rw [i7, show (generateWithRetryGo cfg call rand (attempt + 1) fuel
              (sleeps ++ [calculate_retry_delay cfg attempt
                (ApiOutcome.apiError st m).baseOverride (rand attempt)])
              (noms ++ [nominalDelay cfg attempt
                (ApiOutcome.apiError st m).baseOverride])).attemptsMade - 1 - attempt =
              ((generateWithRetryGo cfg call rand (attempt + 1) fuel
              (sleeps ++ [calculate_retry_delay cfg attempt
                (ApiOutcome.apiError st m).baseOverride (rand attempt)])
              (noms ++ [nominalDelay cfg attempt
                (ApiOutcome.apiError st m).baseOverride])).attemptsMade - 1 - (attempt + 1)) + 1
            from by omega, List.range'_succ, List.map_cons, List.append_assoc,
            List.singleton_append, hc]
      · dsimp only
        refine ⟨by omega, by omega, fun k hk1 hk2 => absurd hk2 (by omega), ?_, ?_, ?_, ?_⟩
        · intro c' u' h; simp at h
        · intro o h
          simp only [Except.error.injEq] at h
          simpa [Nat.add_sub_cancel, ← h] using hc
        · simp [Nat.add_sub_cancel]
        · simp [Nat.add_sub_cancel]

theorem generate_with_retry_spec (cfg : RetryConfig) (call : ℕ → ApiOutcome)
    (rand : ℕ → ℚ) :
    RetrySpec cfg call rand 0 [] [] (generate_with_retry cfg call rand) :=
  generateWithRetryGo_spec cfg call rand (cfg.max_retries + 1) 0 [] []
    (Nat.zero_le _) (by omega)

theorem nominalDelay_default (k : ℕ) (b? : Option ℚ) :
    nominalDelay {} k b? = min (b?.getD 1 * 2 ^ k) 60 := rfl

theorem calculate_retry_delay_default (k : ℕ) (b? : Option ℚ) (r : ℚ) :
    calculate_retry_delay {} k b? r = min (b?.getD 1 * 2 ^ k) 60 * (1/2 + r * (1/2)) := by
  unfold calculate_retry_delay
  rw [if_pos rfl, nominalDelay_default]

theorem baseOverride_getD_pos (o : ApiOutcome) : (0 : ℚ) < o.baseOverride.getD 1 := by
  cases o <;> norm_num [ApiOutcome.baseOverride]

/-- Claim C3, amended: with the default retry config, a Calling phase makes
at most 4 attempts; a retry happens only after a retryable outcome (rate
limit, timeout/connection, or 5xx API error) — a non-retryable API error
(non-rate-limit 4xx or missing status) at the first attempt surfaces failure
immediately with no retry; the `k`-th retry sleeps exactly
`min(base * 2^k, 60) * (0.5 + 0.5*jitter)` with base 60 for rate limits and
1 otherwise — i.e. within ±50% of the nominal delay; and nominal delays are
non-decreasing across retries that share the same base override (they can
decrease between a rate-limit retry and a non-rate-limit retry). -/
theorem retry_policy_spec (call : ℕ → ApiOutcome) (rand : ℕ → ℚ) (r : RetryTrace)
    (hrand : ∀ k, 0 ≤ rand k ∧ rand k < 1)
    (hr : r = generate_with_retry {} call rand) :
    r.attemptsMade ≤ 4 ∧
    (∀ k, k + 1 < r.attemptsMade → (call k).retryable = true) ∧
    (∀ st m, call 0 = .apiError st m → (ApiOutcome.apiError st m).retryable = false →
      r.attemptsMade = 1 ∧ r.outcome = .error (.apiError st m)) ∧
    r.sleeps.length = r.attemptsMade - 1 ∧
    r.nominals.length = r.attemptsMade - 1 ∧
    (∀ k, k < r.attemptsMade - 1 →
      r.nominals.getD k 0 = min ((call k).baseOverride.getD 1 * 2 ^ k) 60 ∧
      r.sleeps.getD k 0 = r.nominals.getD k 0 * (1/2 + rand k * (1/2)) ∧
      r.nominals.getD k 0 / 2 ≤ r.sleeps.getD k 0 ∧
      r.sleeps.getD k 0 ≤ r.nominals.getD k 0) ∧
    (∀ k l, k ≤ l → l < r.attemptsMade - 1 →
      (call k).baseOverride = (call l).baseOverride →
      r.nominals.getD k 0 ≤ r.nominals.getD l 0) := by
  obtain ⟨s1, s2, s3, s4, s5, s6, s7⟩ := generate_with_retry_spec {} call rand
  subst hr
  set r := generate_with_retry {} call rand with hrdef
  rw [List.nil_append] at s6 s7
  have hslen : r.sleeps.length = r.attemptsMade - 1 := by
    rw [s6, List.length_map, List.length_range']
    omega
  have hnlen : r.nominals.length = r.attemptsMade - 1 := by
    rw [s7, List.length_map, List.length_range']
    omega
  have hnom : ∀ k, k < r.attemptsMade - 1 →
      r.nominals.getD k 0 = min ((call k).baseOverride.getD 1 * 2 ^ k) 60 := by
    intro k hk
    rw [s7]
    have hk' : k < (List.map (fun k => nominalDelay {} k (call k).baseOverride)
        (List.range' 0 (r.attemptsMade - 1 - 0))).length := by
      rw [List.length_map, List.length_range']; omega
    rw [List.getD_eq_getElem _ 0 hk']
    simp only [List.getElem_map, List.getElem_range'_1, Nat.zero_add]
    exact nominalDelay_default k _
  have hsleep : ∀ k, k < r.attemptsMade - 1 →
      r.sleeps.getD k 0 = min ((call k).baseOverride.getD 1 * 2 ^ k) 60 *
        (1/2 + rand k * (1/2)) := by
    intro k hk
    rw [s6]
    have hk' : k < (List.map (fun k => calculate_retry_delay {} k (call k).baseOverride
        (rand k)) (List.range' 0 (r.attemptsMade - 1 - 0))).length := by
      rw [List.length_map, List.length_range']; omega
    rw [List.getD_eq_getElem _ 0 hk']
    simp only [List.getElem_map, List.getElem_range'_1, Nat.zero_add]
    exact calculate_retry_delay_default k _ _
  have hnompos : ∀ k, (0:ℚ) < min ((call k).baseOverride.getD 1 * 2 ^ k) 60 := by
    intro k
    apply lt_min
    · exact mul_pos (baseOverride_getD_pos (call k)) (by positivity)
    · norm_num
  refine ⟨s1, fun k hk => s3 k (Nat.zero_le k) hk, ?_, hslen, hnlen, ?_, ?_⟩
  · intro st m hc h4
    have hA1 : r.attemptsMade = 1 := by
      by_contra hne
      have h2 : 2 ≤ r.attemptsMade := by omega
      have := s3 0 (Nat.le_refl 0) (by omega)
      rw [hc] at this
      rw [this] at h4
      simp at h4
    refine ⟨hA1, ?_⟩
    cases ho : r.outcome with
    | ok pr =>
      obtain ⟨c, u⟩ := pr
      have := s4 c u ho
      rw [hA1] at this
      rw [hc] at this
      exact absurd this (by simp)
    | error o =>
      have := s5 o ho
      rw [hA1] at this
      rw [hc] at this
      rw [this]
  · intro k hk
    have h1 := hnom k hk
    have h2 := hsleep k hk
    obtain ⟨hr0, hr1⟩ := hrand k
    refine ⟨h1, by rw [h2, h1], ?_, ?_⟩
    · rw [h2, h1]
      have := (hnompos k).le
      nlinarith
    · rw [h2, h1]
      have := (hnompos k).le
      nlinarith
  · intro k l hkl hl hbase
    have h1 := hnom k (by omega)
    have h2 := hnom l hl
    rw [h1, h2, hbase]
    refine min_le_min ?_ le_rfl
    apply mul_le_mul_of_nonneg_left _ (baseOverride_getD_pos (call l)).le
    exact pow_le_pow_right₀ (by norm_num) hkl

/-- Claim C3, counterexample: under a timeout / rate-limit / timeout error
sequence the nominal (pre-jitter) delays are `[1, 60, 4]` — the rate-limit
retry waits a nominal 60 s, the following timeout retry only 4 s — so nominal
delays are not non-decreasing across the attempts of a single Calling phase. -/
theorem nominal_delays_can_decrease :
    (generate_with_retry {} mixedCalls fun _ => 0).nominals = [1, 60, 4] ∧
    ¬((60 : ℚ) ≤ 4) := by
  constructor
  · norm_num [generate_with_retry, generateWithRetryGo, mixedCalls,
      calculate_retry_delay, nominalDelay, ApiOutcome.baseOverride,
      ApiOutcome.retryable, min_def]
  · norm_num

/-! ## Claim C7: token-budget adjustment -/

/-- Claim C7, amended: the adjusted budget is the complexity-scaled default —
`min(1.5x, 6000)` for Complex, `floor(0.7x)` for Simple, unchanged otherwise —
then floor-scaled by `1 + 0.2 * personaCount` for persona-based generation
with personas present.  The 6000 cap applies only inside the Complex branch
before the persona multiplier, so for a Complex persona-based request the
final budget can exceed 6000; without persona scaling the Complex budget does
respect the cap. -/
theorem adjusted_max_tokens_formula (S : ServiceConfig) (ctx : PromptContext)
    (req : GenerationRequest) :
    ((adjust_generation_parameters S ctx req).max_tokens =
      (if ctx.generation_type = .persona_based ∧ (ctx.personas.getD []) ≠ [] then
        ((⌊(if ctx.complexity = .complex then min ((S.max_tokens : ℚ) * (3/2)) 6000
            else if ctx.complexity = .simple then ((⌊(S.max_tokens : ℚ) * (7/10)⌋ : ℤ) : ℚ)
            else (S.max_tokens : ℚ)) *
          (1 + ((ctx.personas.getD []).length : ℚ) * (1/5))⌋ : ℤ) : ℚ)
      else
        (if ctx.complexity = .complex then min ((S.max_tokens : ℚ) * (3/2)) 6000
         else if ctx.complexity = .simple then ((⌊(S.max_tokens : ℚ) * (7/10)⌋ : ℤ) : ℚ)
         else (S.max_tokens : ℚ)))) ∧
    (ctx.complexity = .complex →
      ¬(ctx.generation_type = .persona_based ∧ (ctx.personas.getD []) ≠ []) →
      (adjust_generation_parameters S ctx req).max_tokens ≤ 6000) := by
  have hform : (adjust_generation_parameters S ctx req).max_tokens =
      (if ctx.generation_type = .persona_based ∧ (ctx.personas.getD []) ≠ [] then
        ((⌊(if ctx.complexity = .complex then min ((S.max_tokens : ℚ) * (3/2)) 6000
            else if ctx.complexity = .simple then ((⌊(S.max_tokens : ℚ) * (7/10)⌋ : ℤ) : ℚ)
            else (S.max_tokens : ℚ)) *
          (1 + ((ctx.personas.getD []).length : ℚ) * (1/5))⌋ : ℤ) : ℚ)
      else
        (if ctx.complexity = .complex then min ((S.max_tokens : ℚ) * (3/2)) 6000
         else if ctx.complexity = .simple then ((⌊(S.max_tokens : ℚ) * (7/10)⌋ : ℤ) : ℚ)
         else (S.max_tokens : ℚ))) := by
    unfold adjust_generation_parameters
    dsimp only
    split_ifs <;> rfl
  refine ⟨hform, ?_⟩
  intro hcplx hnp
  rw [hform, if_neg hnp, if_pos hcplx]
  exact min_le_right _ _

/-- Claim C7, counterexample: with the default configured budget of 4000, a
Complex persona-based context with two personas gets
`floor(min(6000, 6000) * 1.4) = 8400` max tokens — beyond the claimed
absolute cap of 6000. -/
theorem adjusted_tokens_exceed_cap :
    (adjust_generation_parameters {} personaComplexCtx anyReq).max_tokens = 8400 ∧
    ¬((8400 : ℚ) ≤ 6000) := by
  constructor
  · norm_num +decide [adjust_generation_parameters, personaComplexCtx, min_def,
      quality_focused_temperature, creativity_temperature]
  · norm_num

/-! ## Claim C1: the orchestrator never raises -/

/-- Claim C1: `generate_test_cases` always returns a `GenerationResult`; when
the prompt stage or the (retry-wrapped) completion call raises, the result is
the failure shape — `success = false`, no test cases, zeroed token usage,
zero quality and confidence scores, the exception text in `error_message`,
and nothing tracked; when every stage returns, `error_message` is `none`. -/
theorem orchestrator_never_raises (S : ServiceConfig)
    (render : String → PromptContext → String)
    (extract : String → Option JsonPayload)
    (textParse : String → List String → List ParsedTestCase × List String)
    (promptExc : ℕ → Option String) (parseExc : ℕ → Option (List String × String))
    (apiCalls : ℕ → ℕ → ApiOutcome) (rand : ℕ → ℕ → ℚ)
    (elapsed : ℚ) (req : GenerationRequest) (T : OrchTrace)
    (hT : T = generate_test_cases S render extract textParse promptExc parseExc
      apiCalls rand elapsed req) :
    (∀ e, promptStage S render (promptExc 0) (build_context req) = .error e →
      T.result.success = false ∧ T.result.test_cases = [] ∧
      T.result.token_usage = { model := S.model,
                               prompt_tokens := 0,
                               completion_tokens := 0,
                               total_tokens := 0 } ∧
      T.result.quality_score = 0 ∧ T.result.confidence_score = 0 ∧
      T.result.error_message = some e ∧ T.tracked = []) ∧
    (∀ pd o, promptStage S render (promptExc 0) (build_context req) = .ok pd →
      (generate_with_retry S.retry_config (apiCalls 0) (rand 0)).outcome = .error o →
      T.result.success = false ∧ T.result.test_cases = [] ∧
      T.result.token_usage = { model := S.model,
                               prompt_tokens := 0,
                               completion_tokens := 0,
                               total_tokens := 0 } ∧
      T.result.quality_score = 0 ∧ T.result.confidence_score = 0 ∧
      T.result.error_message = some o.message ∧ T.tracked = []) ∧
    (∀ pd raw usage, promptStage S render (promptExc 0) (build_context req) = .ok pd →
      (generate_with_retry S.retry_config (apiCalls 0) (rand 0)).outcome =
        .ok (raw, usage) →
      T.result.error_message = none) := by
  subst hT
  unfold generate_test_cases
  dsimp only
  refine ⟨?_, ?_, ?_⟩
  · intro e he
    rw [he]
    exact ⟨rfl, rfl, rfl, rfl, rfl, rfl, rfl⟩
  · intro pd o hpd ho
    rw [hpd]
    dsimp only
    rw [ho]
    exact ⟨rfl, rfl, rfl, rfl, rfl, rfl, rfl⟩
  · intro pd raw usage hpd ho
    rw [hpd]
    dsimp only
    rw [ho]
    dsimp only
    split_ifs <;> rfl

/-! ## Claim C2: the quality gate -/

theorem dictGet_cons {α : Type} (a : String × α) (tl : List (String × α)) (k : String) :
    dictGet (a :: tl) k = if a.1 = k then some a.2 else dictGet tl k := by
  by_cases h : a.1 = k <;> simp [dictGet, List.find?_cons, h]

theorem dictGet_eq_none_of_not_any {α : Type} (d : List (String × α)) (k : String)
    (h : d.any (fun p => p.1 = k) = false) : dictGet d k = none := by
  induction d with
  | nil => rfl
  | cons a tl ih =>
    simp only [List.any_cons, Bool.or_eq_false_iff] at h
    rw [dictGet_cons, if_neg (of_decide_eq_false h.1)]
    exact ih h.2

theorem dictGet_map_keyfix_self {α : Type} (d : List (String × α)) (k : String) (v : α)
    (hany : d.any (fun p => p.1 = k) = true) :
    dictGet (d.map (fun p => if p.1 = k then (k, v) else p)) k = some v := by
  induction d with
  | nil => simp at hany
  | cons a tl ih =>
    rw [List.map_cons, dictGet_cons]
    by_cases hak : a.1 = k
    · rw [if_pos hak]
      simp
    · rw [if_neg hak, if_neg hak]
      refine ih ?_
      simp only [List.any_cons, Bool.or_eq_true] at hany
      rcases hany with h | h
      · exact absurd (by simpa using h) hak
      · exact h

theorem dictGet_map_keyfix_ne {α : Type} (d : List (String × α)) (k k' : String) (v : α)
    (h : ¬k' = k) :
    dictGet (d.map (fun p => if p.1 = k then (k, v) else p)) k' = dictGet d k' := by
  induction d with
  | nil => rfl
  | cons a tl ih =>
    rw [List.map_cons, dictGet_cons, dictGet_cons]
    by_cases hak : a.1 = k
    · rw [if_pos hak]
      have h1 : ¬((k : String) = k') := fun he => h he.symm
      have h2 : ¬(a.1 = k') := fun he => h (he.symm.trans hak)
      rw [if_neg h1, if_neg h2]
      exact ih
    · rw [if_neg hak]
      by_cases hk' : a.1 = k'
      · rw [if_pos hk', if_pos hk']
      · rw [if_neg hk', if_neg hk']
        exact ih

theorem dictGet_append_right_of_none {α : Type} (d l : List (String × α)) (k : String)
    (hnone : dictGet d k = none) : dictGet (d ++ l) k = dictGet l k := by
  induction d with
  | nil => simp
  | cons a tl ih =>
    rw [dictGet_cons] at hnone
    by_cases hak : a.1 = k
    · rw [if_pos hak] at hnone; cases hnone
    · rw [if_neg hak] at hnone
      rw [List.cons_append, dictGet_cons, if_neg hak]
      exact ih hnone

theorem dictGet_append_single_ne {α : Type} (d : List (String × α)) (k k' : String) (v : α)
    (h : ¬k' = k) : dictGet (d ++ [(k, v)]) k' = dictGet d k' := by
  induction d with
  | nil =>
    rw [List.nil_append, dictGet_cons, if_neg (fun he => h he.symm)]
  | cons a tl ih =>
    rw [List.cons_append, dictGet_cons, dictGet_cons]
    by_cases hk' : a.1 = k'
    · rw [if_pos hk', if_pos hk']
    · rw [if_neg hk', if_neg hk']
      exact ih

theorem dictGet_dictSet_self {α : Type} (d : List (String × α)) (k : String) (v : α) :
    dictGet (dictSet d k v) k = some v := by
  unfold dictSet
  split_ifs with hany
  · exact dictGet_map_keyfix_self d k v hany
  · rw [dictGet_append_right_of_none d [(k, v)] k
      (dictGet_eq_none_of_not_any d k (Bool.eq_false_iff.mpr hany))]
    simp [dictGet_cons]

theorem dictGet_dictSet_ne {α : Type} (d : List (String × α)) (k k' : String) (v : α)
    (h : ¬k' = k) : dictGet (dictSet d k v) k' = dictGet d k' := by
  unfold dictSet
  split_ifs with hany
  · exact dictGet_map_keyfix_ne d k k' v h
  · exact dictGet_append_single_ne d k k' v h

theorem adjust_ignores_additional_context (S : ServiceConfig) (ctx : PromptContext)
    (req : GenerationRequest) (initial : ParsedResponse) :
    adjust_generation_parameters S (enhanced_context_of ctx req initial) req =
      adjust_generation_parameters S ctx req := rfl

theorem enhanced_context_lookups (ctx : PromptContext) (req : GenerationRequest)
    (initial : ParsedResponse) (base : List (String × JVal))
    (hb : (enhanced_context_of ctx req initial).additional_context = some base) :
    dictGet base "quality_improvement_needed" = some (.bool true) ∧
    dictGet base "previous_issues" =
      some (.arr ((quality_issues_of initial).map JVal.str)) ∧
    dictGet base "minimum_test_cases" =
      some (.num ((max 5 (req.max_test_cases / 2) : ℕ) : ℚ)) ∧
    dictGet base "focus_on_clarity" = some (.bool true) := by
  unfold enhanced_context_of at hb
  dsimp only at hb
  rw [Option.some.injEq] at hb
  subst hb
  refine ⟨?_, ?_, ?_, ?_⟩
  · rw [dictGet_dictSet_ne _ _ _ _ (by decide), dictGet_dictSet_ne _ _ _ _ (by decide),
      dictGet_dictSet_ne _ _ _ _ (by decide), dictGet_dictSet_self]
  · rw [dictGet_dictSet_ne _ _ _ _ (by decide), dictGet_dictSet_ne _ _ _ _ (by decide),
      dictGet_dictSet_self]
  · rw [dictGet_dictSet_ne _ _ _ _ (by decide), dictGet_dictSet_self]
  · rw [dictGet_dictSet_self]

theorem retry_with_enhanced_prompt_ok (S : ServiceConfig)
    (render : String → PromptContext → String)
    (extract : String → Option JsonPayload)
    (textParse : String → List String → List ParsedTestCase × List String)
    (parseExc1 : Option (List String × String)) (call1 : ℕ → ApiOutcome)
    (rand1 : ℕ → ℚ) (ctx : PromptContext) (req : GenerationRequest)
    (initial : ParsedResponse) (raw2 : String) (usage2 : TokenUsage)
    (hgp : (generate_prompt S.templates render
      (enhanced_context_of ctx req initial)).isSome)
    (hok2 : (generate_with_retry S.retry_config call1 rand1).outcome =
      .ok (raw2, usage2)) :
    (retry_with_enhanced_prompt S render extract textParse none parseExc1 call1 rand1
      ctx req initial).tracked = [usage2] ∧
    (retry_with_enhanced_prompt S render extract textParse none parseExc1 call1 rand1
      ctx req initial).enhanced_prompt =
      (generate_prompt S.templates render (enhanced_context_of ctx req initial)).map
        (fun ep => { ep with user_prompt := ep.user_prompt ++ quality_enhancement }) ∧
    (retry_with_enhanced_prompt S render extract textParse none parseExc1 call1 rand1
      ctx req initial).enhanced_params = some (enhanced_params_of S ctx req initial) ∧
    (retry_with_enhanced_prompt S render extract textParse none parseExc1 call1 rand1
      ctx req initial).result.isSome := by
  obtain ⟨ep0, hep0⟩ := Option.isSome_iff_exists.mp hgp
  unfold retry_with_enhanced_prompt promptStage
  dsimp only
  rw [hep0]
  dsimp only
  rw [hok2]
  dsimp only
  exact ⟨rfl, rfl, rfl, rfl⟩

/-- Claim C2, amended: when the first parsed response falls below the quality
threshold the orchestrator performs exactly one enhanced retry: the context
bag gains the quality-improvement flag, the prior-issue hints and the minimum
test-case count `max(5, max_test_cases // 2)`; the fixed quality-enhancement
block is appended to the rendered prompt; the temperature is the re-adjusted
one raised by 0.1 capped at 0.5; the enhanced response replaces the original
only on strict confidence improvement; and — provided the enhanced rendering
and completion calls succeed — exactly two TokenUsage records are tracked
(first first that of the enhanced call, then that of the original call). -/
theorem quality_gate_spec (S : ServiceConfig)
    (render : String → PromptContext → String)
    (extract : String → Option JsonPayload)
    (textParse : String → List String → List ParsedTestCase × List String)
    (promptExc : ℕ → Option String) (parseExc : ℕ → Option (List String × String))
    (apiCalls : ℕ → ℕ → ApiOutcome) (rand : ℕ → ℕ → ℚ)
    (elapsed : ℚ) (req : GenerationRequest) (T : OrchTrace) (pd : PromptData)
    (raw : String) (usage : TokenUsage) (raw2 : String) (usage2 : TokenUsage)
    (hT : T = generate_test_cases S render extract textParse promptExc parseExc
      apiCalls rand elapsed req)
    (hpd : promptStage S render (promptExc 0) (build_context req) = .ok pd)
    (hok : (generate_with_retry S.retry_config (apiCalls 0) (rand 0)).outcome =
      .ok (raw, usage))
    (hq : (parse_response extract textParse raw pd.expected_format
      (parseExc 0)).confidence_score < req.quality_threshold)
    (hpe : promptExc 1 = none)
    (hgp : (generate_prompt S.templates render (enhanced_context_of (build_context req)
      req (parse_response extract textParse raw pd.expected_format
        (parseExc 0)))).isSome)
    (hok2 : (generate_with_retry S.retry_config (apiCalls 1) (rand 1)).outcome =
      .ok (raw2, usage2)) :
    T.retryCount = 1 ∧
    T.tracked = [usage2, usage] ∧
    (∀ base, (enhanced_context_of (build_context req) req (parse_response extract
        textParse raw pd.expected_format (parseExc 0))).additional_context = some base →
      dictGet base "quality_improvement_needed" = some (.bool true) ∧
      dictGet base "previous_issues" = some (.arr ((quality_issues_of
        (parse_response extract textParse raw pd.expected_format
          (parseExc 0))).map JVal.str)) ∧
      dictGet base "minimum_test_cases" =
        some (.num ((max 5 (req.max_test_cases / 2) : ℕ) : ℚ)) ∧
      dictGet base "focus_on_clarity" = some (.bool true)) ∧
    (∀ t, T.retryTrace = some t →
      t.enhanced_prompt = (generate_prompt S.templates render
        (enhanced_context_of (build_context req) req (parse_response extract textParse
          raw pd.expected_format (parseExc 0)))).map
        (fun ep => { ep with user_prompt := ep.user_prompt ++ quality_enhancement }) ∧
      t.enhanced_params = some (enhanced_params_of S (build_context req) req
        (parse_response extract textParse raw pd.expected_format (parseExc 0)))) ∧
    ((enhanced_params_of S (build_context req) req (parse_response extract textParse
        raw pd.expected_format (parseExc 0))).temperature =
      min ((adjust_generation_parameters S (build_context req) req).temperature + 1/10)
        (1/2)) ∧
    (∀ t er, T.retryTrace = some t → t.result = some er →
      T.finalParsed = some (if (parse_response extract textParse raw
          pd.expected_format (parseExc 0)).confidence_score < er.confidence_score
        then er
        else parse_response extract textParse raw pd.expected_format (parseExc 0))) := by
  obtain ⟨hr1, hr2, hr3, hr4⟩ := retry_with_enhanced_prompt_ok S render extract textParse
    (parseExc 1) (apiCalls 1) (rand 1) (build_context req) req
    (parse_response extract textParse raw pd.expected_format (parseExc 0))
    raw2 usage2 hgp hok2
  subst hT
  unfold generate_test_cases
  dsimp only
  rw [hpd]
  dsimp only
  rw [hok]
  dsimp only
  rw [if_pos hq, hpe]
  refine ⟨rfl, ?_, ?_, ?_, ?_, ?_⟩
  · dsimp only
    rw [hr1]
    rfl
  · intro base hb
    exact enhanced_context_lookups _ req _ base hb
  · intro t ht
    dsimp only at ht
    rw [Option.some.injEq] at ht
    subst ht
    exact ⟨hr2, hr3⟩
  · rfl
  · intro t er ht her
    dsimp only at ht ⊢
    rw [Option.some.injEq] at ht
    subst ht
    rw [her]

/-- Claim C2, counterexample: the quality gate fires (confidence 0 below
threshold 1) and the single enhanced retry is attempted, but the enhanced completion
call raises a client error, so the retry is abandoned and only ONE TokenUsage
record is tracked — not the two the claim asserts. -/
theorem enhanced_retry_failure_tracks_one :
    (generate_test_cases {} noRender noExtract emptyTextParse (fun _ => none)
      (fun _ => none) cexCalls (fun _ _ => 0) 0 lowReq).retryCount = 1 ∧
    (generate_test_cases {} noRender noExtract emptyTextParse (fun _ => none)
      (fun _ => none) cexCalls (fun _ _ => 0) 0 lowReq).tracked = [smallUsage] ∧
    ¬((generate_test_cases {} noRender noExtract emptyTextParse (fun _ => none)
      (fun _ => none) cexCalls (fun _ _ => 0) 0 lowReq).tracked.length = 2) := by
  refine ⟨?_, ?_, ?_⟩ <;>
    norm_num +decide [generate_test_cases, build_context, promptStage, generate_prompt,
      get_optimal_template, defaultTemplates, dictGet, generate_with_retry,
      generateWithRetryGo, retry_with_enhanced_prompt, enhanced_context_of,
      enhanced_params_of, quality_issues_of, parse_response, parse_response_body,
      emptyTextParse, noExtract, noRender, validate_test_cases, validateGo,
      calculate_confidence_score, cexCalls, lowReq, smallUsage, ApiOutcome.retryable,
      ApiOutcome.baseOverride, ApiOutcome.message, calculate_retry_delay, nominalDelay,
      adjust_generation_parameters, dictSet, quality_focused_temperature,
      creativity_temperature, min_def, build_generation_result, List.isEmpty]

/-! ## Concrete witnesses -/

theorem confidence_score_spec_witness :
    calculate_confidence_score [] [] = spec_confidence_score [] [] ∧
    calculate_confidence_score [] [] = 0 :=
  ⟨(confidence_score_matches_spec [] []).1,
   (confidence_score_matches_spec [] []).2.2.2 rfl⟩

theorem orchestrator_failure_witness :
    (generate_test_cases {} noRender noExtract emptyTextParse (fun _ => some "boom")
      (fun _ => none) cexCalls (fun _ _ => 0) 0 lowReq).result.success = false ∧
    (generate_test_cases {} noRender noExtract emptyTextParse (fun _ => some "boom")
      (fun _ => none) cexCalls (fun _ _ => 0) 0 lowReq).result.error_message =
      some "boom" := by
  have h := (orchestrator_never_raises {} noRender noExtract emptyTextParse
    (fun _ => some "boom") (fun _ => none) cexCalls (fun _ _ => 0) 0 lowReq _ rfl).1
    "boom" rfl
  exact ⟨h.1, h.2.2.2.2.2.1⟩

theorem quality_gate_witness :
    (generate_test_cases {} noRender noExtract emptyTextParse (fun _ => none)
      (fun _ => none) allOkCalls (fun _ _ => 0) 0 lowReq).retryCount = 1 ∧
    (generate_test_cases {} noRender noExtract emptyTextParse (fun _ => none)
      (fun _ => none) allOkCalls (fun _ _ => 0) 0 lowReq).tracked =
      [smallUsage, smallUsage] := by
  obtain ⟨h1, h2, -⟩ := quality_gate_spec {} noRender noExtract emptyTextParse
    (fun _ => none) (fun _ => none) allOkCalls (fun _ _ => 0) 0 lowReq _
    saasPromptData "" smallUsage "" smallUsage rfl rfl rfl
    (by norm_num [parse_response, parse_response_body, emptyTextParse, noExtract,
      validate_test_cases, validateGo, calculate_confidence_score, lowReq,
      List.isEmpty])
    rfl rfl rfl
  exact ⟨h1, h2⟩

theorem retry_policy_witness :
    (generate_with_retry {} mixedCalls fun _ => 0).attemptsMade ≤ 4 :=
  (retry_policy_spec mixedCalls (fun _ => 0) _ (fun _ => ⟨le_refl 0, by norm_num⟩)
    rfl).1

theorem validated_invariants_witness :
    ((parse_response (fun _ => some { test_cases := some [Except.ok oneStepFullTc] })
        emptyTextParse "r" (.obj []) none).test_cases.all fun tc =>
      decide (0 < tc.estimated_duration) &&
      decide (tc.test_steps.map (·.step_number) =
        (List.range' 1 tc.test_steps.length).map (fun n => (n : ℤ)))) = true := by
  rw [List.all_eq_true]
  intro tc htc
  have hauto : ∀ it ∈ ({ test_cases := some [Except.ok oneStepFullTc] } :
      JsonPayload).test_cases.getD [], ∀ d : TcData, it = Except.ok d →
      ∀ s ∈ d.test_steps.getD [], s.autoNumbered = true := by
    intro it hit d hd s hs
    rw [show ({ test_cases := some [Except.ok oneStepFullTc] } :
      JsonPayload).test_cases.getD [] = [Except.ok oneStepFullTc] from rfl,
      List.mem_singleton] at hit
    subst hit
    injection hd with hd'
    subst hd'
    simp only [oneStepFullTc, Option.getD_some, List.mem_singleton] at hs
    subst hs
    rfl
  obtain ⟨h1, h2⟩ := validated_cases_invariants
    (fun _ => some { test_cases := some [Except.ok oneStepFullTc] })
    emptyTextParse emptyTextParse "r" (.obj []) none "r" (.obj [])
    { test_cases := some [Except.ok oneStepFullTc] } hauto
  simp [h1 tc htc, h2 tc htc]

theorem json_round_trip_witness :
    (parse_response (fun _ => some { test_cases := some ([sixStepTc].map Except.ok) })
        emptyTextParse "r" (.obj []) none).test_cases.length = 1 ∧
    (parse_response (fun _ => some { test_cases := some ([sixStepTc].map Except.ok) })
        emptyTextParse "r" (.obj []) none).confidence_score = 1 := by
  have hfull : ∀ d ∈ [sixStepTc], FullyPopulated d := by
    intro d hd
    rw [List.mem_singleton] at hd
    subst hd
    unfold FullyPopulated
    refine ⟨by decide, by decide, by decide, by decide, by decide, by decide,
      by decide, by decide, by decide⟩
  obtain ⟨h1, -, -, h4⟩ := json_round_trip [sixStepTc] emptyTextParse "r" (.obj [])
    (by simp) hfull
  exact ⟨h1, h4⟩

theorem adjusted_tokens_witness :
    (adjust_generation_parameters {} complexCtx anyReq).max_tokens ≤ 6000 :=
  (adjusted_max_tokens_formula {} complexCtx anyReq).2 rfl (by decide)

theorem template_selection_witness :
    get_optimal_template defaultTemplates finEdgeCtx =
      dictGet defaultTemplates "finance_standard" := by
  obtain ⟨t, ht⟩ : ∃ t, dictGet defaultTemplates "finance_standard" = some t := ⟨_, rfl⟩
  rw [show get_optimal_template defaultTemplates finEdgeCtx =
      get_optimal_template (List.foldl add_custom_template defaultTemplates []) finEdgeCtx
      from rfl,
    (template_selection_total_and_ordered [] finEdgeCtx t).2.2.1 rfl ht, ht]

theorem success_copy_witness :
    (generate_test_cases {} noRender noExtract emptyTextParse (fun _ => none)
      (fun _ => none) allOkCalls (fun _ _ => 0) 0 zeroReq).result.success = true := by
  have h := success_iff_no_parsing_errors {} noRender noExtract emptyTextParse
    (fun _ => none) (fun _ => none) allOkCalls (fun _ _ => 0) 0 zeroReq
    (parse_response noExtract emptyTextParse "" saasPromptData.expected_format none)
    "" (.obj [])
    (by norm_num +decide [generate_test_cases, build_context, promptStage,
      generate_prompt, get_optimal_template, defaultTemplates, dictGet,
      generate_with_retry, generateWithRetryGo, allOkCalls, zeroReq, parse_response,
      parse_response_body, emptyTextParse, noExtract, noRender, validate_test_cases,
      validateGo, calculate_confidence_score, List.isEmpty, saasPromptData,
      standard_output_format, StoryDomain.value, TestGenerationType.value,
      smallUsage])
  rw [h.2.1]
  decide

end TestGen
